import Mathlib

/-!
RawSpeed `KdcDecoder`: shallow embedding and verified properties.

Source: `src/librawspeed/decoders/KdcDecoder.cpp`.

The decoder is a client of several classes that live in other translation
units (`TiffIFD`, `TiffEntry`, `FileMap`, `RawImageData`,
`UncompressedDecompressor`, `RawDecoder`).  Their observable behaviour is
taken as data here:

* a `TiffEntry` is its element count together with its typed accessors; every
  accessor may throw, so it returns `Except Exc _`;
* a `TiffIFD` is the answer it gives to the two recursive queries the decoder
  makes (`getEntryRecursive`, `getIFDsWithTag`);
* the remaining collaborators are the fields of `Collab`.

C++ exceptions are values of `Exc`.  A method that mutates `mRaw` and may
throw returns a `Run`: the exception thrown (if any) together with `mRaw` as
the method left it.  `uint32` values are naturals reduced modulo `2^32`.
White-balance coefficients are `float` in the source; every value the decoder
itself computes (a 16-bit integer divided by 256) is exactly representable,
so coefficients are modelled as rationals.
-/

namespace RawSpeed

/-! ## Data model -/

/-- The TIFF tags the decoder queries (`tiff/TiffTag.h`). -/
inductive TiffTag where
  | COMPRESSION
  | MAKE
  | MODEL
  | KODAK_IFD2
  | KODAKWB
  | KODAK_KDC_WB
  | KODAK_KDC_WIDTH
  | KODAK_KDC_HEIGHT
  | KODAK_KDC_OFFSET
  deriving DecidableEq, Repr

/-- Thrown values.  `ThrowRDE(fmt, args...)` raises a `RawDecoderException`
carrying the printf format and its arguments; `TiffParserException` is the
class caught in `decodeMetaDataInternal`; every other exception class a
collaborator may raise is `OtherException`. -/
inductive Exc where
  | RawDecoderException (fmt : String) (args : List Int)
  | TiffParserException (what : String)
  | OtherException (what : String)
  deriving DecidableEq, Repr

/-- The `ThrowRDE` macro: build the decoder exception. -/
def ThrowRDE (fmt : String) (args : List Int) : Exc :=
  Exc.RawDecoderException fmt args

/-- Conversion `uint32 → int` (two's complement), as performed by
`int compression = ...->getInt()` and by `iPoint2D(width, height)`. -/
def toInt32 (v : Nat) : Int :=
  if v % 4294967296 < 2147483648 then ((v % 4294967296 : Nat) : Int)
  else ((v % 4294967296 : Nat) : Int) - 4294967296

/-- A TIFF entry: element count and raw typed contents.  Each read may throw. -/
structure TiffEntry where
  count : Nat
  ints : Nat → Except Exc Nat
  floats : Nat → Except Exc ℚ
  bytes : Nat → Except Exc Nat
  str : Except Exc String

/-- Accessor `uint32 TiffEntry::getInt(uint32 num)`. -/
def TiffEntry.getInt (e : TiffEntry) (num : Nat) : Except Exc Nat :=
  match e.ints num with
  | .ok v => .ok (v % 4294967296)
  | .error x => .error x

/-- Accessor `uchar8 TiffEntry::getByte(uint32 num)`. -/
def TiffEntry.getByte (e : TiffEntry) (num : Nat) : Except Exc Nat :=
  match e.bytes num with
  | .ok v => .ok (v % 256)
  | .error x => .error x

/-- Accessor `float TiffEntry::getFloat(uint32 num)`. -/
def TiffEntry.getFloat (e : TiffEntry) (num : Nat) : Except Exc ℚ :=
  e.floats num

/-- Accessor `string TiffEntry::getString()`. -/
def TiffEntry.getString (e : TiffEntry) : Except Exc String :=
  e.str

/-- One directory of the tree, as returned by `getIFDsWithTag`: its own
entries, looked up exactly (`hasEntry` / `getEntry`). -/
structure TiffDir where
  mEntry : TiffTag → Option TiffEntry

/-- Query `TiffIFD::hasEntry`. -/
def TiffDir.hasEntry (dir : TiffDir) (tag : TiffTag) : Bool :=
  (dir.mEntry tag).isSome

/-- The tag repository seen through its recursive queries:
`getEntryRecursive` yields `none` for the null pointer. -/
structure TiffIFD where
  getEntryRecursive : TiffTag → Option TiffEntry
  getIFDsWithTag : TiffTag → List TiffDir

/-- Query `TiffIFD::hasEntryRecursive`. -/
def TiffIFD.hasEntryRecursive (ifd : TiffIFD) (tag : TiffTag) : Bool :=
  (ifd.getEntryRecursive tag).isSome

/-- The input file: size in bytes and byte contents by index. -/
structure FileMap where
  size : Nat
  data : Nat → Nat

/-- Accessor `FileMap::getSize`. -/
def FileMap.getSize (f : FileMap) : Nat := f.size

/-- Integer point: `iPoint2D` has `int` coordinates. -/
structure iPoint2D where
  x : Int
  y : Int
  deriving DecidableEq, Repr

/-- The image under construction (`mRaw`): dimensions, pixel storage
(`none` until allocated), the three white-balance coefficients and the list
of non-fatal errors attached by `setError`. -/
structure RawImage where
  dim : iPoint2D
  data : Option (List Nat)
  wbCoeffs : ℚ × ℚ × ℚ
  errors : List String
  deriving DecidableEq

/-- Non-fatal error attachment, `mRaw->setError(what)`. -/
def RawImage.setError (r : RawImage) (what : String) : RawImage :=
  { r with errors := r.errors ++ [what] }

/-- Assignment `mRaw->dim = p`. -/
def RawImage.setDim (r : RawImage) (p : iPoint2D) : RawImage :=
  { r with dim := p }

/-- Write `mRaw->metadata.wbCoeffs[0]`. -/
def RawImage.setWb0 (r : RawImage) (v : ℚ) : RawImage :=
  { r with wbCoeffs := (v, r.wbCoeffs.2.1, r.wbCoeffs.2.2) }

/-- Write `mRaw->metadata.wbCoeffs[1]`. -/
def RawImage.setWb1 (r : RawImage) (v : ℚ) : RawImage :=
  { r with wbCoeffs := (r.wbCoeffs.1, v, r.wbCoeffs.2.2) }

/-- Write `mRaw->metadata.wbCoeffs[2]`. -/
def RawImage.setWb2 (r : RawImage) (v : ℚ) : RawImage :=
  { r with wbCoeffs := (r.wbCoeffs.1, r.wbCoeffs.2.1, v) }

/-- Outcome of a method acting on `mRaw`: the exception that escaped it, if
any, and `mRaw` as it stands afterwards. -/
structure Run where
  thrown : Option Exc
  mRaw : RawImage
  deriving DecidableEq

/-- Collaborators implemented outside `KdcDecoder.cpp`. -/
structure Collab where
  /-- Allocation, `mRaw->createData()`: allocates storage for `mRaw->dim`. -/
  createData : RawImage → Run
  /-- Unpacker: `UncompressedDecompressor u(*mFile, off, mRaw, uncorrectedRawValues)`
  followed by `u.decode12BitRawBE(width, height)`. -/
  decode12BitRawBE : FileMap → Nat → Bool → Nat → Nat → RawImage → Run
  /-- Database check, `checkCameraSupported(meta, make, model, mode)`. -/
  checkCameraSupported : String → String → String → Option Exc
  /-- Base-class method `setMetaData(meta, make, model, mode, iso)`. -/
  setMetaData : String → String → String → Nat → RawImage → Run
  /-- Constructor `TiffRootIFD(entry->getRootIfdData(), offset)`: parse the
  nested tree found at `offset`. -/
  parseRootIFD : TiffEntry → Nat → Except Exc TiffIFD
  /-- The exception `TiffIFD::getEntry` raises for a tag the directory lacks. -/
  entryNotFound : TiffTag → Exc

/-- Exact lookup `TiffIFD::getEntry`, which throws when the tag is absent. -/
def TiffDir.getEntry (c : Collab) (dir : TiffDir) (tag : TiffTag) : Except Exc TiffEntry :=
  match dir.mEntry tag with
  | some e => .ok e
  | none => .error (c.entryNotFound tag)

/-- The decoder object: root IFD, file, image under construction, the hint
map and the `uncorrectedRawValues` flag inherited from `RawDecoder`. -/
structure KdcDecoder where
  mRootIFD : TiffIFD
  mFile : FileMap
  mRaw : RawImage
  hints : List (String × String)
  uncorrectedRawValues : Bool

/-- Test `hints.find(key) != hints.end()` on the hint map. -/
def hasHint (hints : List (String × String)) (key : String) : Bool :=
  hints.any (fun kv => kv.1 == key)

/-! ## `KdcDecoder::decodeRawInternal` -/

/-- Lines 77–84: set the dimensions, allocate, and run the 12-bit big-endian
unpacker at `off`; the image returned is `mRaw`. -/
def decodePixels (c : Collab) (d : KdcDecoder) (width height off : Nat) : Run :=
  match c.createData (d.mRaw.setDim (iPoint2D.mk (toInt32 width) (toInt32 height))) with
  | Run.mk (some e) r2 => Run.mk (some e) r2
  | Run.mk none r2 => c.decode12BitRawBE d.mFile off d.uncorrectedRawValues width height r2

/-- Line 68 and lines 71–72: the `uint32` offset `getInt(4) + getInt(12)`,
replaced by one of the two dcraw constants when the hint is present. -/
def resolvedOffset (hack : Bool) (e4 e12 : Nat) : Nat :=
  let off := (e4 + e12) % 4294967296
  if hack then (if off < 0x15000 then 0x15000 else 0x17000) else off

/-- Lines 65–75 onwards: locate the pixel data and check it against the file
size, then decode. -/
def resolveOffset (c : Collab) (d : KdcDecoder) (width height : Nat) : Run :=
  match d.mRootIFD.getEntryRecursive TiffTag.KODAK_KDC_OFFSET with
  | none => Run.mk (some (ThrowRDE "KDC Decoder: Couldn't find the KDC offset" [])) d.mRaw
  | some offset =>
    if offset.count < 13 then
      Run.mk (some (ThrowRDE "KDC Decoder: Couldn't find the KDC offset" [])) d.mRaw
    else
      match offset.getInt 4 with
      | .error e => Run.mk (some e) d.mRaw
      | .ok e4 =>
        match offset.getInt 12 with
        | .error e => Run.mk (some e) d.mRaw
        | .ok e12 =>
          let off := resolvedOffset (hasHint d.hints "easyshare_offset_hack") e4 e12
          if off > d.mFile.getSize then
            Run.mk (some (ThrowRDE "KDC Decoder: offset is out of bounds" [])) d.mRaw
          else
            decodePixels c d width height off

/-- Lines 55–63 onwards: the `uint32` width and height, `getInt()+80` and
`getInt()+70`, when both vendor tags are found. -/
def resolveGeometry (c : Collab) (d : KdcDecoder) : Run :=
  match d.mRootIFD.getEntryRecursive TiffTag.KODAK_KDC_WIDTH,
        d.mRootIFD.getEntryRecursive TiffTag.KODAK_KDC_HEIGHT with
  | some ew, some eh =>
    match ew.getInt 0 with
    | .error e => Run.mk (some e) d.mRaw
    | .ok w =>
      match eh.getInt 0 with
      | .error e => Run.mk (some e) d.mRaw
      | .ok h => resolveOffset c d ((w + 80) % 4294967296) ((h + 70) % 4294967296)
  | _, _ => Run.mk (some (ThrowRDE "KDC Decoder: Unable to retrieve image size" [])) d.mRaw

/-- The method `KdcDecoder::decodeRawInternal` (lines 47–85).  The test
`hasEntryRecursive(COMPRESSION)` is the `none` branch of the lookup. -/
def decodeRawInternal (c : Collab) (d : KdcDecoder) : Run :=
  match d.mRootIFD.getEntryRecursive TiffTag.COMPRESSION with
  | none => Run.mk (some (ThrowRDE "KDC Decoder: Couldn't find compression setting" [])) d.mRaw
  | some ce =>
    match ce.getInt 0 with
    | .error e => Run.mk (some e) d.mRaw
    | .ok v =>
      let compression : Int := toInt32 v
      if 7 ≠ compression then
        Run.mk (some (ThrowRDE "KDC Decoder: Unsupported compression %d" [compression])) d.mRaw
      else
        resolveGeometry c d

/-! ## `KdcDecoder::checkSupportInternal` -/

/-- The method `KdcDecoder::checkSupportInternal` (lines 87–94): `none` when
it returns normally, otherwise the exception that escaped. -/
def checkSupportInternal (c : Collab) (d : KdcDecoder) : Option Exc :=
  match d.mRootIFD.getIFDsWithTag TiffTag.MODEL with
  | [] => some (ThrowRDE "KDC Support check: Model name not found" [])
  | d0 :: _ =>
    match d0.getEntry c TiffTag.MAKE with
    | .error e => some e
    | .ok me =>
      match me.getString with
      | .error e => some e
      | .ok make =>
        match d0.getEntry c TiffTag.MODEL with
        | .error e => some e
        | .ok mo =>
          match mo.getString with
          | .error e => some e
          | .ok model => c.checkCameraSupported make model ""

/-! ## `KdcDecoder::decodeMetaDataInternal` -/

/-- Lines 112–121, the body of the `try` block: build the hidden Kodak IFD
at the offset held by `ifdoffset` and, when it has a `KODAK_KDC_WB` entry of
count 3, store its three floats one after the other. -/
def kodakIfdBody (c : Collab) (ifdoffset : TiffEntry) (r : RawImage) : Run :=
  match ifdoffset.getInt 0 with
  | .error e => Run.mk (some e) r
  | .ok o =>
    match c.parseRootIFD ifdoffset o with
    | .error e => Run.mk (some e) r
    | .ok kodakifd =>
      match kodakifd.getEntryRecursive TiffTag.KODAK_KDC_WB with
      | none => Run.mk none r
      | some wb =>
        if wb.count = 3 then
          match wb.getFloat 0 with
          | .error e => Run.mk (some e) r
          | .ok f0 =>
            match wb.getFloat 1 with
            | .error e => Run.mk (some e) (r.setWb0 f0)
            | .ok f1 =>
              match wb.getFloat 2 with
              | .error e => Run.mk (some e) ((r.setWb0 f0).setWb1 f1)
              | .ok f2 => Run.mk none (((r.setWb0 f0).setWb1 f1).setWb2 f2)
        else Run.mk none r

/-- Lines 108–125: the hidden-IFD white balance.  A `TiffParserException`
leaving the `try` block is caught and recorded with `setError`; any other
exception propagates. -/
def kodakIfdWB (c : Collab) (d : KdcDecoder) (r : RawImage) : Run :=
  match d.mRootIFD.getEntryRecursive TiffTag.KODAK_IFD2 with
  | none => Run.mk none r
  | some ifdoffset =>
    match kodakIfdBody c ifdoffset r with
    | Run.mk (some (Exc.TiffParserException what)) r1 => Run.mk none (r1.setError what)
    | res => res

/-- Lines 131 and 133: `(float)((((ushort16) hi) << 8) | lo) / 256.0f` for
two bytes `hi`, `lo`. -/
def wbFromBytes (hi lo : Nat) : ℚ :=
  (((((hi % 65536) <<< 8) ||| lo : Nat) : ℚ)) / 256

/-- Lines 127–135: the flat `KODAKWB` block, used when its count is one of
the two known sizes. -/
def kodakWB (d : KdcDecoder) (r : RawImage) : Run :=
  match d.mRootIFD.getEntryRecursive TiffTag.KODAKWB with
  | none => Run.mk none r
  | some wb =>
    if wb.count = 734 ∨ wb.count = 1502 then
      match wb.getByte 148 with
      | .error e => Run.mk (some e) r
      | .ok b148 =>
        match wb.getByte 149 with
        | .error e => Run.mk (some e) r
        | .ok b149 =>
          let r1 := (r.setWb0 (wbFromBytes b148 b149)).setWb1 1
          match wb.getByte 150 with
          | .error e => Run.mk (some e) r1
          | .ok b150 =>
            match wb.getByte 151 with
            | .error e => Run.mk (some e) r1
            | .ok b151 => Run.mk none (r1.setWb2 (wbFromBytes b150 b151))
    else Run.mk none r

/-- The method `KdcDecoder::decodeMetaDataInternal` (lines 96–136). -/
def decodeMetaDataInternal (c : Collab) (d : KdcDecoder) : Run :=
  match d.mRootIFD.getIFDsWithTag TiffTag.MODEL with
  | [] => Run.mk (some (ThrowRDE "KDC Decoder: Model name found" [])) d.mRaw
  | d0 :: _ =>
    if !d0.hasEntry TiffTag.MAKE then
      Run.mk (some (ThrowRDE "KDC Decoder: Make name not found" [])) d.mRaw
    else
      match d0.getEntry c TiffTag.MAKE with
      | .error e => Run.mk (some e) d.mRaw
      | .ok me =>
        match me.getString with
        | .error e => Run.mk (some e) d.mRaw
        | .ok make =>
          match d0.getEntry c TiffTag.MODEL with
          | .error e => Run.mk (some e) d.mRaw
          | .ok mo =>
            match mo.getString with
            | .error e => Run.mk (some e) d.mRaw
            | .ok model =>
              match c.setMetaData make model "" 0 d.mRaw with
              | Run.mk (some e) r1 => Run.mk (some e) r1
              | Run.mk none r1 =>
                match kodakIfdWB c d r1 with
                | Run.mk (some e) r2 => Run.mk (some e) r2
                | Run.mk none r2 => kodakWB d r2

/-! ## Reference collaborators and sample inputs -/

/-- Modelled from the spec: the Bit Unpacker's sample `k` of the packed
stream starting at `off` ("two 12-bit samples per three bytes, no row
padding", big-endian); the unpacker itself is not part of `KdcDecoder.cpp`. -/
def sample12BE (f : FileMap) (off k : Nat) : Nat :=
  let i := off + 3 * (k / 2)
  if k % 2 = 0 then (f.data i % 256) * 16 + (f.data (i + 1) % 256) / 16
  else ((f.data (i + 1) % 256) % 16) * 256 + f.data (i + 2) % 256

/-- Modelled from the spec: the Bit Unpacker ("given a byte source, a start
offset, and target width/height, produces a populated pixel grid from a fixed
12-bit big-endian packed layout"), which fails rather than read past the byte
source; `UncompressedDecompressor` is not part of `KdcDecoder.cpp`. -/
def specUnpack (f : FileMap) (off : Nat) (_uncorrected : Bool) (w h : Nat) (r : RawImage) : Run :=
  if off + (w * h * 12 + 7) / 8 > f.size then
    Run.mk (some (Exc.OtherException "read past the end of the byte source")) r
  else
    Run.mk none { r with data := some ((List.range (w * h)).map (sample12BE f off)) }

/-- Modelled from the spec: pixel-buffer allocation ("allocate a pixel buffer
sized to the resolved width×height", a step with "no independent failure
mode"); `RawImageData::createData` is not part of `KdcDecoder.cpp`. -/
def specCreateData (r : RawImage) : Run :=
  Run.mk none { r with data := some (List.replicate (r.dim.x.toNat * r.dim.y.toNat) 0) }

/-- Modelled from the spec: the collaborators of §2 and §6 — the allocator
and Bit Unpacker above, a camera database that accepts every camera, a
`setMetaData` that leaves the image alone, a nested-tree parser that rejects
every offset with a parse error, and a parse error for a missing entry; none
of them is part of `KdcDecoder.cpp`. -/
def specCollab : Collab where
  createData := specCreateData
  decode12BitRawBE := specUnpack
  checkCameraSupported := fun _ _ _ => none
  setMetaData := fun _ _ _ _ r => Run.mk none r
  parseRootIFD := fun _ _ => .error (Exc.TiffParserException "invalid IFD offset")
  entryNotFound := fun _ => Exc.TiffParserException "TIFF entry not found"

/-- An entry holding the given integers (no float, byte or string view). -/
def intEntry (vals : List Nat) : TiffEntry where
  count := vals.length
  ints := fun i =>
    match vals.get? i with
    | some v => .ok v
    | none => .error (Exc.OtherException "index out of range")
  floats := fun _ => .error (Exc.TiffParserException "not a float entry")
  bytes := fun _ => .error (Exc.TiffParserException "not a byte entry")
  str := .error (Exc.TiffParserException "not a string entry")

/-- An entry holding a string. -/
def strEntry (s : String) : TiffEntry where
  count := s.length
  ints := fun _ => .error (Exc.TiffParserException "not an integer entry")
  floats := fun _ => .error (Exc.TiffParserException "not a float entry")
  bytes := fun _ => .error (Exc.TiffParserException "not a byte entry")
  str := .ok s

/-- An entry of `count` bytes whose contents are given by `b`. -/
def byteEntry (count : Nat) (b : Nat → Nat) : TiffEntry where
  count := count
  ints := fun _ => .error (Exc.TiffParserException "not an integer entry")
  floats := fun _ => .error (Exc.TiffParserException "not a float entry")
  bytes := fun i =>
    if i < count then .ok (b i) else .error (Exc.OtherException "index out of range")
  str := .error (Exc.TiffParserException "not a string entry")

/-- An entry of the given count every read of which throws. -/
def unreadableEntry (count : Nat) : TiffEntry where
  count := count
  ints := fun _ => .error (Exc.OtherException "element read")
  floats := fun _ => .error (Exc.OtherException "element read")
  bytes := fun _ => .error (Exc.OtherException "element read")
  str := .error (Exc.OtherException "element read")

/-- A fresh image: no dimensions, no storage, default coefficients. -/
def emptyImage : RawImage where
  dim := iPoint2D.mk 0 0
  data := none
  wbCoeffs := (1, 1, 1)
  errors := []

/-- A vendor offset entry of 13 elements with the given elements 4 and 12. -/
def offsetEntry (e4 e12 : Nat) : TiffEntry :=
  intEntry [0, 0, 0, 0, e4, 0, 0, 0, 0, 0, 0, 0, e12]

/-- A tag repository with the given optional raw-decode tags and nothing else. -/
def rawIFD (compression width height : Option Nat) (offset : Option TiffEntry) : TiffIFD where
  getEntryRecursive := fun t =>
    match t with
    | TiffTag.COMPRESSION => compression.map (fun v => intEntry [v])
    | TiffTag.KODAK_KDC_WIDTH => width.map (fun v => intEntry [v])
    | TiffTag.KODAK_KDC_HEIGHT => height.map (fun v => intEntry [v])
    | TiffTag.KODAK_KDC_OFFSET => offset
    | _ => none
  getIFDsWithTag := fun _ => []

/-- A decoder over `rawIFD` for a file of `size` zero bytes. -/
def rawDecoder (ifd : TiffIFD) (size : Nat) (hack : Bool) : KdcDecoder where
  mRootIFD := ifd
  mFile := FileMap.mk size (fun _ => 0)
  mRaw := emptyImage
  hints := if hack then [("easyshare_offset_hack", "")] else []
  uncorrectedRawValues := false

/-- A directory holding the given optional Make and Model strings. -/
def dirOf (make model : Option String) : TiffDir where
  mEntry := fun t =>
    match t with
    | TiffTag.MAKE => make.map strEntry
    | TiffTag.MODEL => model.map strEntry
    | _ => none

/-- A tag repository for the metadata methods: the directories carrying
Model, and the optional hidden-IFD pointer and flat white-balance block. -/
def metaIFD (dirs : List TiffDir) (ifd2 kodakwb : Option TiffEntry) : TiffIFD where
  getEntryRecursive := fun t =>
    match t with
    | TiffTag.KODAK_IFD2 => ifd2
    | TiffTag.KODAKWB => kodakwb
    | _ => none
  getIFDsWithTag := fun t =>
    match t with
    | TiffTag.MODEL => dirs
    | _ => []

/-- The four bytes 148..151 of a flat white-balance block, zero elsewhere. -/
def wbBlock (b148 b149 b150 b151 : Nat) (i : Nat) : Nat :=
  if i = 148 then b148 else if i = 149 then b149 else if i = 150 then b150
  else if i = 151 then b151 else 0

/-- An entry of `count` floats of which only the listed leading values can be
read; reading further raises a parse error. -/
def floatEntry (count : Nat) (vals : List ℚ) : TiffEntry where
  count := count
  ints := fun _ => .error (Exc.TiffParserException "not an integer entry")
  floats := fun i =>
    match vals.get? i with
    | some v => .ok v
    | none => .error (Exc.TiffParserException "float value unreadable")
  bytes := fun _ => .error (Exc.TiffParserException "not a byte entry")
  str := .error (Exc.TiffParserException "not a string entry")

/-- A hidden Kodak IFD holding the given optional white-balance entry. -/
def wbIFD (wb : Option TiffEntry) : TiffIFD where
  getEntryRecursive := fun t =>
    match t with
    | TiffTag.KODAK_KDC_WB => wb
    | _ => none
  getIFDsWithTag := fun _ => []

/-- The reference collaborators with a nested-tree parser that finds the tree
`nested` at every offset. -/
def nestedCollab (nested : TiffIFD) : Collab where
  createData := specCreateData
  decode12BitRawBE := specUnpack
  checkCameraSupported := fun _ _ _ => none
  setMetaData := fun _ _ _ _ r => Run.mk none r
  parseRootIFD := fun _ _ => .ok nested
  entryNotFound := fun _ => Exc.TiffParserException "TIFF entry not found"

/-- An allocator that refuses images wider or taller than `limit` pixels and
otherwise allocates like `specCreateData`. -/
def boundedCreateData (limit : Int) (r : RawImage) : Run :=
  if r.dim.x > limit ∨ r.dim.y > limit then
    Run.mk (some (ThrowRDE "Dimensions too large for allocation." [])) r
  else specCreateData r

/-- The reference collaborators with the allocator bounded by `limit`. -/
def boundedCollab (limit : Int) : Collab where
  createData := boundedCreateData limit
  decode12BitRawBE := specUnpack
  checkCameraSupported := fun _ _ _ => none
  setMetaData := fun _ _ _ _ r => Run.mk none r
  parseRootIFD := fun _ _ => .error (Exc.TiffParserException "invalid IFD offset")
  entryNotFound := fun _ => Exc.TiffParserException "TIFF entry not found"

end RawSpeed

namespace RawSpeed

/-! ## Auxiliary facts about the accessors and the stages of `decodeRawInternal` -/

theorem getInt_lt (e : TiffEntry) (i v : Nat) (h : e.getInt i = .ok v) : v < 4294967296 := by
  unfold TiffEntry.getInt at h
  split at h
  · injection h with h
    omega
  · cases h

theorem getByte_lt (e : TiffEntry) (i v : Nat) (h : e.getByte i = .ok v) : v < 256 := by
  unfold TiffEntry.getByte at h
  split at h
  · injection h with h
    omega
  · cases h

theorem toInt32_eq_seven (v : Nat) (hv : v < 4294967296) : toInt32 v = 7 ↔ v = 7 := by
  unfold toInt32
  split <;> omega

theorem toInt32_of_lt (v : Nat) (hv : v < 2147483648) : toInt32 v = (v : Int) := by
  unfold toInt32
  split <;> omega

/-- With a Compression entry of value 7 the method continues with the
geometry stage. -/
theorem decodeRawInternal_compression_seven (c : Collab) (d : KdcDecoder) (ce : TiffEntry)
    (hc : d.mRootIFD.getEntryRecursive TiffTag.COMPRESSION = some ce)
    (hv : ce.getInt 0 = .ok 7) :
    decodeRawInternal c d = resolveGeometry c d := by
  unfold decodeRawInternal
  simp only [hc, hv]
  have h7 : toInt32 7 = 7 := by decide
  simp [h7]

/-- With both vendor size tags readable the geometry stage continues with the
offset stage at the wrapped sums. -/
theorem resolveGeometry_tags (c : Collab) (d : KdcDecoder) (ew eh : TiffEntry) (w h : Nat)
    (hew : d.mRootIFD.getEntryRecursive TiffTag.KODAK_KDC_WIDTH = some ew)
    (heh : d.mRootIFD.getEntryRecursive TiffTag.KODAK_KDC_HEIGHT = some eh)
    (hw : ew.getInt 0 = .ok w) (hh : eh.getInt 0 = .ok h) :
    resolveGeometry c d
      = resolveOffset c d ((w + 80) % 4294967296) ((h + 70) % 4294967296) := by
  unfold resolveGeometry
  simp only [hew, heh, hw, hh]

/-- With an offset entry of at least 13 readable elements the offset stage is
the bounds check on `resolvedOffset` followed by the pixel stage. -/
theorem resolveOffset_entry (c : Collab) (d : KdcDecoder) (width height : Nat)
    (offset : TiffEntry) (e4 e12 : Nat)
    (ho : d.mRootIFD.getEntryRecursive TiffTag.KODAK_KDC_OFFSET = some offset)
    (hcount : 13 ≤ offset.count)
    (h4 : offset.getInt 4 = .ok e4) (h12 : offset.getInt 12 = .ok e12) :
    resolveOffset c d width height
      = if resolvedOffset (hasHint d.hints "easyshare_offset_hack") e4 e12 > d.mFile.getSize then
          Run.mk (some (ThrowRDE "KDC Decoder: offset is out of bounds" [])) d.mRaw
        else
          decodePixels c d width height
            (resolvedOffset (hasHint d.hints "easyshare_offset_hack") e4 e12) := by
  unfold resolveOffset
  have hn : ¬ offset.count < 13 := by omega
  simp only [ho, hn, h4, h12, if_false]

/-- The whole method on an input all of whose raw-decode tags are present and
readable, with Compression 7. -/
theorem decodeRawInternal_resolved (c : Collab) (d : KdcDecoder)
    (ce ew eh offset : TiffEntry) (w h e4 e12 : Nat)
    (hc : d.mRootIFD.getEntryRecursive TiffTag.COMPRESSION = some ce)
    (hv : ce.getInt 0 = .ok 7)
    (hew : d.mRootIFD.getEntryRecursive TiffTag.KODAK_KDC_WIDTH = some ew)
    (heh : d.mRootIFD.getEntryRecursive TiffTag.KODAK_KDC_HEIGHT = some eh)
    (hw : ew.getInt 0 = .ok w) (hh : eh.getInt 0 = .ok h)
    (ho : d.mRootIFD.getEntryRecursive TiffTag.KODAK_KDC_OFFSET = some offset)
    (hcount : 13 ≤ offset.count)
    (h4 : offset.getInt 4 = .ok e4) (h12 : offset.getInt 12 = .ok e12) :
    decodeRawInternal c d
      = if resolvedOffset (hasHint d.hints "easyshare_offset_hack") e4 e12 > d.mFile.getSize then
          Run.mk (some (ThrowRDE "KDC Decoder: offset is out of bounds" [])) d.mRaw
        else
          decodePixels c d ((w + 80) % 4294967296) ((h + 70) % 4294967296)
            (resolvedOffset (hasHint d.hints "easyshare_offset_hack") e4 e12) := by
  rw [decodeRawInternal_compression_seven c d ce hc hv,
    resolveGeometry_tags c d ew eh w h hew heh hw hh,
    resolveOffset_entry c d _ _ offset e4 e12 ho hcount h4 h12]

/-- A resolved offset strictly greater than the file size is rejected with the
out-of-bounds error and `mRaw` is left untouched. -/
theorem decodeRawInternal_offset_gt_size (c : Collab) (d : KdcDecoder)
    (ce ew eh offset : TiffEntry) (w h e4 e12 : Nat)
    (hc : d.mRootIFD.getEntryRecursive TiffTag.COMPRESSION = some ce)
    (hv : ce.getInt 0 = .ok 7)
    (hew : d.mRootIFD.getEntryRecursive TiffTag.KODAK_KDC_WIDTH = some ew)
    (heh : d.mRootIFD.getEntryRecursive TiffTag.KODAK_KDC_HEIGHT = some eh)
    (hw : ew.getInt 0 = .ok w) (hh : eh.getInt 0 = .ok h)
    (ho : d.mRootIFD.getEntryRecursive TiffTag.KODAK_KDC_OFFSET = some offset)
    (hcount : 13 ≤ offset.count)
    (h4 : offset.getInt 4 = .ok e4) (h12 : offset.getInt 12 = .ok e12)
    (hoff : resolvedOffset (hasHint d.hints "easyshare_offset_hack") e4 e12 > d.mFile.getSize) :
    decodeRawInternal c d
      = Run.mk (some (ThrowRDE "KDC Decoder: offset is out of bounds" [])) d.mRaw := by
  rw [decodeRawInternal_resolved c d ce ew eh offset w h e4 e12 hc hv hew heh hw hh ho hcount h4 h12,
    if_pos hoff]

/-- The pixel stage stores the two `uint32` dimensions converted to `int`,
provided the allocator and the unpacker leave `dim` alone. -/
theorem decodePixels_dim (c : Collab) (d : KdcDecoder) (width height off : Nat)
    (hcd : ∀ r, (c.createData r).mRaw.dim = r.dim)
    (hun : ∀ f o u w h r, (c.decode12BitRawBE f o u w h r).mRaw.dim = r.dim) :
    (decodePixels c d width height off).mRaw.dim
      = iPoint2D.mk (toInt32 width) (toInt32 height) := by
  unfold decodePixels
  have h1 := hcd (d.mRaw.setDim (iPoint2D.mk (toInt32 width) (toInt32 height)))
  rcases hr : c.createData (d.mRaw.setDim (iPoint2D.mk (toInt32 width) (toInt32 height)))
    with ⟨t, r2⟩
  rw [hr] at h1
  cases t with
  | some e => exact h1
  | none =>
    show (c.decode12BitRawBE d.mFile off d.uncorrectedRawValues width height r2).mRaw.dim = _
    rw [hun]
    exact h1

/-- A successful run went through the pixel stage at the wrapped sums of the
two size tags. -/
theorem decodeRawInternal_success_pixels (c : Collab) (d : KdcDecoder) (ew eh : TiffEntry)
    (w h : Nat)
    (hew : d.mRootIFD.getEntryRecursive TiffTag.KODAK_KDC_WIDTH = some ew)
    (heh : d.mRootIFD.getEntryRecursive TiffTag.KODAK_KDC_HEIGHT = some eh)
    (hw : ew.getInt 0 = .ok w) (hh : eh.getInt 0 = .ok h)
    (hok : (decodeRawInternal c d).thrown = none) :
    ∃ off, decodeRawInternal c d
      = decodePixels c d ((w + 80) % 4294967296) ((h + 70) % 4294967296) off := by
  unfold decodeRawInternal at hok ⊢
  cases hc : d.mRootIFD.getEntryRecursive TiffTag.COMPRESSION with
  | none => simp [hc] at hok
  | some ce =>
    simp only [hc] at hok ⊢
    cases hv : ce.getInt 0 with
    | error e => simp [hv] at hok
    | ok v =>
      simp only [hv] at hok ⊢
      by_cases h7 : 7 ≠ toInt32 v
      · simp [h7] at hok
      · simp only [h7, if_false] at hok ⊢
        rw [resolveGeometry_tags c d ew eh w h hew heh hw hh] at hok ⊢
        unfold resolveOffset at hok ⊢
        cases ho : d.mRootIFD.getEntryRecursive TiffTag.KODAK_KDC_OFFSET with
        | none => simp [ho] at hok
        | some offset =>
          simp only [ho] at hok ⊢
          by_cases hcount : offset.count < 13
          · simp [hcount] at hok
          · simp only [hcount, if_false] at hok ⊢
            cases h4 : offset.getInt 4 with
            | error e => simp [h4] at hok
            | ok e4 =>
              simp only [h4] at hok ⊢
              cases h12 : offset.getInt 12 with
              | error e => simp [h12] at hok
              | ok e12 =>
                simp only [h12] at hok ⊢
                by_cases hb : resolvedOffset (hasHint d.hints "easyshare_offset_hack") e4 e12
                    > d.mFile.getSize
                · simp [hb] at hok
                · simp only [hb, if_false]
                  exact ⟨_, rfl⟩

/-- Dimensions of the image a successful run returns. -/
theorem decodeRawInternal_success_dim (c : Collab) (d : KdcDecoder) (ew eh : TiffEntry)
    (w h : Nat)
    (hcd : ∀ r, (c.createData r).mRaw.dim = r.dim)
    (hun : ∀ f o u w h r, (c.decode12BitRawBE f o u w h r).mRaw.dim = r.dim)
    (hew : d.mRootIFD.getEntryRecursive TiffTag.KODAK_KDC_WIDTH = some ew)
    (heh : d.mRootIFD.getEntryRecursive TiffTag.KODAK_KDC_HEIGHT = some eh)
    (hw : ew.getInt 0 = .ok w) (hh : eh.getInt 0 = .ok h)
    (hok : (decodeRawInternal c d).thrown = none) :
    (decodeRawInternal c d).mRaw.dim
      = iPoint2D.mk (toInt32 ((w + 80) % 4294967296)) (toInt32 ((h + 70) % 4294967296)) := by
  obtain ⟨off, hoff⟩ := decodeRawInternal_success_pixels c d ew eh w h hew heh hw hh hok
  rw [hoff]
  exact decodePixels_dim c d _ _ off hcd hun

/-- The reference allocator leaves `dim` alone. -/
theorem specCreateData_dim (r : RawImage) : (specCreateData r).mRaw.dim = r.dim := rfl

/-- The reference unpacker leaves `dim` alone. -/
theorem specUnpack_dim (f : FileMap) (o : Nat) (u : Bool) (w h : Nat) (r : RawImage) :
    (specUnpack f o u w h r).mRaw.dim = r.dim := by
  unfold specUnpack
  split <;> rfl

/-- The two bytes combine without loss: shift-and-or is `256 * hi + lo`. -/
theorem wbFromBytes_eq (hi lo : Nat) (hhi : hi < 256) (hlo : lo < 256) :
    wbFromBytes hi lo = ((256 * hi + lo : Nat) : ℚ) / 256 := by
  unfold wbFromBytes
  have h1 : hi % 65536 = hi := Nat.mod_eq_of_lt (by omega)
  have h2 : (hi <<< 8) ||| lo = 256 * hi + lo := by
    rw [Nat.shiftLeft_eq]
    have h3 := Nat.mul_add_lt_is_or (show lo < 2 ^ 8 by omega) hi
    have h4 : (2 : Nat) ^ 8 = 256 := by norm_num
    rw [h4] at h3
    rw [Nat.mul_comm hi 256]
    exact h3.symm
  rw [h1, h2]

/-! ## Bounds check on the resolved offset (C1) -/

/-- C1 (offset equal to the file size): with Compression 7, size tags 4000 and
3000, offset elements 0x1000 and 0x2000 and a file of exactly 0x3000 bytes,
the resolved offset equals the file size, yet the bounds check of line 74
(`off > getSize()`) lets it through: for every collaborator the method goes on
to set the dimensions, allocate and call the unpacker at offset 0x3000.  With
the reference collaborators the exception that escapes is the unpacker's, not
the out-of-bounds error, and the buffer has been allocated. -/
theorem decodeRawInternal_offset_eq_size :
    resolvedOffset false 0x1000 0x2000
        = (rawDecoder (rawIFD (some 7) (some 4000) (some 3000)
            (some (offsetEntry 0x1000 0x2000))) 0x3000 false).mFile.getSize
    ∧ (∀ c : Collab,
        decodeRawInternal c (rawDecoder (rawIFD (some 7) (some 4000) (some 3000)
            (some (offsetEntry 0x1000 0x2000))) 0x3000 false)
          = decodePixels c (rawDecoder (rawIFD (some 7) (some 4000) (some 3000)
            (some (offsetEntry 0x1000 0x2000))) 0x3000 false) 4080 3070 0x3000)
    ∧ (decodeRawInternal specCollab (rawDecoder (rawIFD (some 7) (some 4000) (some 3000)
          (some (offsetEntry 0x1000 0x2000))) 0x3000 false)).thrown
        = some (Exc.OtherException "read past the end of the byte source")
    ∧ (decodeRawInternal specCollab (rawDecoder (rawIFD (some 7) (some 4000) (some 3000)
          (some (offsetEntry 0x1000 0x2000))) 0x3000 false)).thrown
        ≠ some (ThrowRDE "KDC Decoder: offset is out of bounds" [])
    ∧ (decodeRawInternal specCollab (rawDecoder (rawIFD (some 7) (some 4000) (some 3000)
          (some (offsetEntry 0x1000 0x2000))) 0x3000 false)).mRaw.data.isSome = true := by
  refine ⟨by decide, fun c => rfl, by decide, by decide, by decide⟩

/-! ## Image dimensions (C2) -/

/-- C2, counterexample: width tag 4294967217 and height tag 4294967227 decode
successfully (reference collaborators), and the returned image is 1 x 1, not
(4294967217 + 80) x (4294967227 + 70). -/
theorem decodeRawInternal_dim_wraps :
    (decodeRawInternal specCollab (rawDecoder (rawIFD (some 7) (some 4294967217)
        (some 4294967227) (some (offsetEntry 0 0))) 16 false)).thrown = none
    ∧ (decodeRawInternal specCollab (rawDecoder (rawIFD (some 7) (some 4294967217)
        (some 4294967227) (some (offsetEntry 0 0))) 16 false)).mRaw.dim = iPoint2D.mk 1 1
    ∧ (decodeRawInternal specCollab (rawDecoder (rawIFD (some 7) (some 4294967217)
        (some 4294967227) (some (offsetEntry 0 0))) 16 false)).mRaw.dim
        ≠ iPoint2D.mk (4294967217 + 80) (4294967227 + 70) := by
  refine ⟨by decide, by decide, by decide⟩

/-- C2, amended: whenever decodeRawInternal succeeds (allocator and unpacker
leaving `dim` as set), the returned image's dimensions are the `uint32` sums
(w + 80) mod 2^32 and (h + 70) mod 2^32 stored as `int`, where w and h are the
values of the vendor width and height tags; they are (w + 80, h + 70) whenever
both sums are below 2^31. -/
theorem decodeRawInternal_dim_mod (c : Collab) (d : KdcDecoder) (ew eh : TiffEntry)
    (w h : Nat)
    (hcd : ∀ r, (c.createData r).mRaw.dim = r.dim)
    (hun : ∀ f o u w h r, (c.decode12BitRawBE f o u w h r).mRaw.dim = r.dim)
    (hew : d.mRootIFD.getEntryRecursive TiffTag.KODAK_KDC_WIDTH = some ew)
    (heh : d.mRootIFD.getEntryRecursive TiffTag.KODAK_KDC_HEIGHT = some eh)
    (hw : ew.getInt 0 = .ok w) (hh : eh.getInt 0 = .ok h)
    (hok : (decodeRawInternal c d).thrown = none) :
    (decodeRawInternal c d).mRaw.dim
        = iPoint2D.mk (toInt32 ((w + 80) % 4294967296)) (toInt32 ((h + 70) % 4294967296))
    ∧ (w + 80 < 2147483648 → h + 70 < 2147483648 →
        (decodeRawInternal c d).mRaw.dim = iPoint2D.mk ((w : Int) + 80) ((h : Int) + 70)) := by
  have hdim := decodeRawInternal_success_dim c d ew eh w h hcd hun hew heh hw hh hok
  refine ⟨hdim, fun h1 h2 => ?_⟩
  rw [hdim]
  have e1 : toInt32 ((w + 80) % 4294967296) = (w : Int) + 80 := by
    unfold toInt32
    split <;> omega
  have e2 : toInt32 ((h + 70) % 4294967296) = (h : Int) + 70 := by
    unfold toInt32
    split <;> omega
  rw [e1, e2]

/-- Witness for `decodeRawInternal_dim_mod`: width tag 4000 and height tag 3000
in a file large enough for the 4080 x 3070 payload give 4080 x 3070. -/
theorem decodeRawInternal_dim_mod_witness :
    (decodeRawInternal specCollab (rawDecoder (rawIFD (some 7) (some 4000) (some 3000)
        (some (offsetEntry 0x1000 0x2000))) 18800688 false)).thrown = none
    ∧ (decodeRawInternal specCollab (rawDecoder (rawIFD (some 7) (some 4000) (some 3000)
        (some (offsetEntry 0x1000 0x2000))) 18800688 false)).mRaw.dim
        = iPoint2D.mk ((4000 : Nat) + 80 : Int) ((3000 : Nat) + 70 : Int) :=
  ⟨by decide,
   (decodeRawInternal_dim_mod specCollab
      (rawDecoder (rawIFD (some 7) (some 4000) (some 3000)
        (some (offsetEntry 0x1000 0x2000))) 18800688 false)
      (intEntry [4000]) (intEntry [3000]) 4000 3000
      specCreateData_dim specUnpack_dim rfl rfl rfl rfl (by decide)).2
      (by decide) (by decide)⟩

/-! ## Compression check (C4) -/

/-- C4: decodeRawInternal fails (compression-setting-not-found error, `mRaw`
untouched) when no Compression entry is recursively reachable; it fails with
the unsupported-compression error, carrying the offending value, whenever the
entry's integer value is not 7, whatever the other tags, hints and
collaborators are; and when the value is 7 the check raises nothing and the
method continues with geometry resolution. -/
theorem decodeRawInternal_compression (c : Collab) (d : KdcDecoder) :
    (d.mRootIFD.getEntryRecursive TiffTag.COMPRESSION = none →
        decodeRawInternal c d
          = Run.mk (some (ThrowRDE "KDC Decoder: Couldn't find compression setting" [])) d.mRaw)
    ∧ (∀ ce v, d.mRootIFD.getEntryRecursive TiffTag.COMPRESSION = some ce →
        ce.getInt 0 = .ok v → v ≠ 7 →
        decodeRawInternal c d
          = Run.mk (some (ThrowRDE "KDC Decoder: Unsupported compression %d" [toInt32 v])) d.mRaw)
    ∧ (∀ ce, d.mRootIFD.getEntryRecursive TiffTag.COMPRESSION = some ce →
        ce.getInt 0 = .ok 7 →
        decodeRawInternal c d = resolveGeometry c d) := by
  refine ⟨fun hc => ?_, fun ce v hc hv hne => ?_, fun ce hc hv => ?_⟩
  · unfold decodeRawInternal
    simp only [hc]
  · have hlt := getInt_lt ce 0 v hv
    have h7 : 7 ≠ toInt32 v := fun h => hne ((toInt32_eq_seven v hlt).mp h.symm)
    unfold decodeRawInternal
    simp only [hc, hv, h7, ne_eq, not_false_eq_true, if_true]
  · exact decodeRawInternal_compression_seven c d ce hc hv

/-- Witness for `decodeRawInternal_compression`: no Compression tag; Compression
5 with no width tag; Compression 7 with no width tag (which reaches the
geometry stage and fails there). -/
theorem decodeRawInternal_compression_witness :
    decodeRawInternal specCollab
        (rawDecoder (rawIFD none (some 4000) (some 3000) (some (offsetEntry 0 0))) 16 false)
      = Run.mk (some (ThrowRDE "KDC Decoder: Couldn't find compression setting" [])) emptyImage
    ∧ decodeRawInternal specCollab
        (rawDecoder (rawIFD (some 5) none (some 3000) (some (offsetEntry 0 0))) 16 false)
      = Run.mk (some (ThrowRDE "KDC Decoder: Unsupported compression %d" [toInt32 5])) emptyImage
    ∧ decodeRawInternal specCollab
        (rawDecoder (rawIFD (some 7) none (some 3000) (some (offsetEntry 0 0))) 16 false)
      = resolveGeometry specCollab
        (rawDecoder (rawIFD (some 7) none (some 3000) (some (offsetEntry 0 0))) 16 false) :=
  ⟨(decodeRawInternal_compression specCollab
      (rawDecoder (rawIFD none (some 4000) (some 3000) (some (offsetEntry 0 0))) 16 false)).1 rfl,
   (decodeRawInternal_compression specCollab
      (rawDecoder (rawIFD (some 5) none (some 3000) (some (offsetEntry 0 0))) 16 false)).2.1
      (intEntry [5]) 5 rfl rfl (by decide),
   (decodeRawInternal_compression specCollab
      (rawDecoder (rawIFD (some 7) none (some 3000) (some (offsetEntry 0 0))) 16 false)).2.2
      (intEntry [7]) rfl rfl⟩

/-! ## Offset resolution (C5, C6, C7) -/

/-- C5, counterexample: without the hint, elements 4 and 12 equal to 0xFFFFFFFF
and 2 resolve to offset 1, not to 0xFFFFFFFF + 2; in a file of 8401 bytes the
bounds check passes and the decode succeeds, although 0xFFFFFFFF + 2 exceeds
the file size. -/
theorem resolvedOffset_no_hint_wraps :
    hasHint (rawDecoder (rawIFD (some 7) (some 0) (some 0)
        (some (offsetEntry 4294967295 2))) 8401 false).hints "easyshare_offset_hack" = false
    ∧ resolvedOffset false 4294967295 2 = 1
    ∧ resolvedOffset false 4294967295 2 ≠ 4294967295 + 2
    ∧ (decodeRawInternal specCollab (rawDecoder (rawIFD (some 7) (some 0) (some 0)
        (some (offsetEntry 4294967295 2))) 8401 false)).thrown = none
    ∧ 4294967295 + 2 > (rawDecoder (rawIFD (some 7) (some 0) (some 0)
        (some (offsetEntry 4294967295 2))) 8401 false).mFile.getSize := by
  refine ⟨by decide, by decide, by decide, by decide, by decide⟩

/-- C5, amended: when the hint "easyshare_offset_hack" is not set, for every
offset entry with at least 13 elements the offset compared with the file size
and handed to the unpacker is (element[4] + element[12]) mod 2^32, which is
element[4] + element[12] whenever that sum is below 2^32. -/
theorem decodeRawInternal_offset_no_hint (c : Collab) (d : KdcDecoder)
    (ce ew eh offset : TiffEntry) (w h e4 e12 : Nat)
    (hc : d.mRootIFD.getEntryRecursive TiffTag.COMPRESSION = some ce)
    (hv : ce.getInt 0 = .ok 7)
    (hew : d.mRootIFD.getEntryRecursive TiffTag.KODAK_KDC_WIDTH = some ew)
    (heh : d.mRootIFD.getEntryRecursive TiffTag.KODAK_KDC_HEIGHT = some eh)
    (hw : ew.getInt 0 = .ok w) (hh : eh.getInt 0 = .ok h)
    (ho : d.mRootIFD.getEntryRecursive TiffTag.KODAK_KDC_OFFSET = some offset)
    (hcount : 13 ≤ offset.count)
    (h4 : offset.getInt 4 = .ok e4) (h12 : offset.getInt 12 = .ok e12)
    (hhint : hasHint d.hints "easyshare_offset_hack" = false) :
    decodeRawInternal c d
        = (if (e4 + e12) % 4294967296 > d.mFile.getSize then
            Run.mk (some (ThrowRDE "KDC Decoder: offset is out of bounds" [])) d.mRaw
          else
            decodePixels c d ((w + 80) % 4294967296) ((h + 70) % 4294967296)
              ((e4 + e12) % 4294967296))
    ∧ (e4 + e12 < 4294967296 → (e4 + e12) % 4294967296 = e4 + e12) := by
  constructor
  · rw [decodeRawInternal_resolved c d ce ew eh offset w h e4 e12 hc hv hew heh hw hh ho
      hcount h4 h12, hhint]
    rfl
  · intro hlt
    exact Nat.mod_eq_of_lt hlt

/-- Witness for `decodeRawInternal_offset_no_hint`: elements 0x1000 and 0x2000
resolve to 0x3000. -/
theorem decodeRawInternal_offset_no_hint_witness :
    decodeRawInternal specCollab (rawDecoder (rawIFD (some 7) (some 4000) (some 3000)
        (some (offsetEntry 0x1000 0x2000))) 0x4000 false)
      = (if (0x1000 + 0x2000) % 4294967296 > (rawDecoder (rawIFD (some 7) (some 4000)
            (some 3000) (some (offsetEntry 0x1000 0x2000))) 0x4000 false).mFile.getSize then
          Run.mk (some (ThrowRDE "KDC Decoder: offset is out of bounds" [])) emptyImage
        else
          decodePixels specCollab (rawDecoder (rawIFD (some 7) (some 4000) (some 3000)
            (some (offsetEntry 0x1000 0x2000))) 0x4000 false)
            ((4000 + 80) % 4294967296) ((3000 + 70) % 4294967296)
            ((0x1000 + 0x2000) % 4294967296))
    ∧ (0x1000 + 0x2000) % 4294967296 = 0x3000 :=
  ⟨(decodeRawInternal_offset_no_hint specCollab
      (rawDecoder (rawIFD (some 7) (some 4000) (some 3000)
        (some (offsetEntry 0x1000 0x2000))) 0x4000 false)
      (intEntry [7]) (intEntry [4000]) (intEntry [3000]) (offsetEntry 0x1000 0x2000)
      4000 3000 0x1000 0x2000 rfl rfl rfl rfl rfl rfl rfl (by decide) rfl rfl (by decide)).1,
   by decide⟩

/-- C6, counterexample: with the hint set, elements 4 and 12 equal to
0xFFFFFFFF and 2 resolve to 0x15000 although 0xFFFFFFFF + 2 is not below
0x15000. -/
theorem resolvedOffset_hint_wraps :
    hasHint (rawDecoder (rawIFD (some 7) (some 0) (some 0)
        (some (offsetEntry 4294967295 2))) 94416 true).hints "easyshare_offset_hack" = true
    ∧ resolvedOffset true 4294967295 2 = 0x15000
    ∧ ¬ (4294967295 + 2 < 0x15000)
    ∧ resolvedOffset true 4294967295 2 ≠ 0x17000
    ∧ (decodeRawInternal specCollab (rawDecoder (rawIFD (some 7) (some 0) (some 0)
        (some (offsetEntry 4294967295 2))) 94416 true)).thrown = none := by
  refine ⟨by decide, by decide, by decide, by decide, by decide⟩

/-- C6, amended: when the hint "easyshare_offset_hack" is set, for every offset
entry with at least 13 elements the offset compared with the file size and
handed to the unpacker is 0x15000 if (element[4] + element[12]) mod 2^32 is
less than 0x15000 and 0x17000 otherwise; it takes no other value. -/
theorem decodeRawInternal_offset_hint (c : Collab) (d : KdcDecoder)
    (ce ew eh offset : TiffEntry) (w h e4 e12 : Nat)
    (hc : d.mRootIFD.getEntryRecursive TiffTag.COMPRESSION = some ce)
    (hv : ce.getInt 0 = .ok 7)
    (hew : d.mRootIFD.getEntryRecursive TiffTag.KODAK_KDC_WIDTH = some ew)
    (heh : d.mRootIFD.getEntryRecursive TiffTag.KODAK_KDC_HEIGHT = some eh)
    (hw : ew.getInt 0 = .ok w) (hh : eh.getInt 0 = .ok h)
    (ho : d.mRootIFD.getEntryRecursive TiffTag.KODAK_KDC_OFFSET = some offset)
    (hcount : 13 ≤ offset.count)
    (h4 : offset.getInt 4 = .ok e4) (h12 : offset.getInt 12 = .ok e12)
    (hhint : hasHint d.hints "easyshare_offset_hack" = true) :
    decodeRawInternal c d
        = (if resolvedOffset true e4 e12 > d.mFile.getSize then
            Run.mk (some (ThrowRDE "KDC Decoder: offset is out of bounds" [])) d.mRaw
          else
            decodePixels c d ((w + 80) % 4294967296) ((h + 70) % 4294967296)
              (resolvedOffset true e4 e12))
    ∧ resolvedOffset true e4 e12
        = (if (e4 + e12) % 4294967296 < 0x15000 then 0x15000 else 0x17000)
    ∧ (resolvedOffset true e4 e12 = 0x15000 ∨ resolvedOffset true e4 e12 = 0x17000) := by
  refine ⟨?_, rfl, ?_⟩
  · rw [decodeRawInternal_resolved c d ce ew eh offset w h e4 e12 hc hv hew heh hw hh ho
      hcount h4 h12, hhint]
  · unfold resolvedOffset
    simp only [if_true]
    split
    · exact Or.inl rfl
    · exact Or.inr rfl

/-- Witness for `decodeRawInternal_offset_hint`: with the hint set, elements
0x1000 and 0x2000 resolve to 0x15000. -/
theorem decodeRawInternal_offset_hint_witness :
    resolvedOffset true 0x1000 0x2000 = 0x15000
    ∧ (resolvedOffset true 0x1000 0x2000 = 0x15000
        ∨ resolvedOffset true 0x1000 0x2000 = 0x17000) :=
  ⟨by decide,
   (decodeRawInternal_offset_hint specCollab
      (rawDecoder (rawIFD (some 7) (some 4000) (some 3000)
        (some (offsetEntry 0x1000 0x2000))) 0x4000 true)
      (intEntry [7]) (intEntry [4000]) (intEntry [3000]) (offsetEntry 0x1000 0x2000)
      4000 3000 0x1000 0x2000 rfl rfl rfl rfl rfl rfl rfl (by decide) rfl rfl
      (by decide)).2.2⟩

/-- C7: on every input that passes the compression and geometry checks,
decodeRawInternal fails with the offset-not-found error, leaving `mRaw`
untouched, if the vendor offset entry is absent or has fewer than 13 elements.
The statement holds for every hint map and for every such entry, whatever its
accessors return or throw, so elements 4 and 12 take no part in the outcome. -/
theorem decodeRawInternal_missing_offset (c : Collab) (d : KdcDecoder)
    (ce ew eh : TiffEntry) (w h : Nat)
    (hc : d.mRootIFD.getEntryRecursive TiffTag.COMPRESSION = some ce)
    (hv : ce.getInt 0 = .ok 7)
    (hew : d.mRootIFD.getEntryRecursive TiffTag.KODAK_KDC_WIDTH = some ew)
    (heh : d.mRootIFD.getEntryRecursive TiffTag.KODAK_KDC_HEIGHT = some eh)
    (hw : ew.getInt 0 = .ok w) (hh : eh.getInt 0 = .ok h)
    (ho : d.mRootIFD.getEntryRecursive TiffTag.KODAK_KDC_OFFSET = none
      ∨ ∃ offset, d.mRootIFD.getEntryRecursive TiffTag.KODAK_KDC_OFFSET = some offset
          ∧ offset.count < 13) :
    decodeRawInternal c d
      = Run.mk (some (ThrowRDE "KDC Decoder: Couldn't find the KDC offset" [])) d.mRaw := by
  rw [decodeRawInternal_compression_seven c d ce hc hv,
    resolveGeometry_tags c d ew eh w h hew heh hw hh]
  unfold resolveOffset
  rcases ho with ho | ⟨offset, ho, hcount⟩
  · simp only [ho]
  · simp only [ho, hcount, if_true]

/-- Witness for `decodeRawInternal_missing_offset`: an offset entry of 12
elements every read of which would throw, with the hint set; the error is
still the offset-not-found one. -/
theorem decodeRawInternal_missing_offset_witness :
    (unreadableEntry 12).count < 13
    ∧ (unreadableEntry 12).getInt 4 = .error (Exc.OtherException "element read")
    ∧ decodeRawInternal specCollab (rawDecoder (rawIFD (some 7) (some 4000) (some 3000)
        (some (unreadableEntry 12))) 0x20000 true)
      = Run.mk (some (ThrowRDE "KDC Decoder: Couldn't find the KDC offset" [])) emptyImage :=
  ⟨by decide, rfl,
   decodeRawInternal_missing_offset specCollab
      (rawDecoder (rawIFD (some 7) (some 4000) (some 3000)
        (some (unreadableEntry 12))) 0x20000 true)
      (intEntry [7]) (intEntry [4000]) (intEntry [3000]) 4000 3000 rfl rfl rfl rfl rfl rfl
      (Or.inr ⟨unreadableEntry 12, rfl, by decide⟩)⟩

/-! ## Geometry tags (C8) -/

/-- C8: on every input whose Compression entry has value 7, decodeRawInternal
fails with the image-size error, leaving `mRaw` untouched, if the vendor width
entry is absent, or the vendor height entry is absent, or both. -/
theorem decodeRawInternal_missing_geometry (c : Collab) (d : KdcDecoder) (ce : TiffEntry)
    (hc : d.mRootIFD.getEntryRecursive TiffTag.COMPRESSION = some ce)
    (hv : ce.getInt 0 = .ok 7)
    (hg : d.mRootIFD.getEntryRecursive TiffTag.KODAK_KDC_WIDTH = none
      ∨ d.mRootIFD.getEntryRecursive TiffTag.KODAK_KDC_HEIGHT = none) :
    decodeRawInternal c d
      = Run.mk (some (ThrowRDE "KDC Decoder: Unable to retrieve image size" [])) d.mRaw := by
  rw [decodeRawInternal_compression_seven c d ce hc hv]
  unfold resolveGeometry
  rcases hg with hg | hg
  · simp only [hg]
  · cases hew : d.mRootIFD.getEntryRecursive TiffTag.KODAK_KDC_WIDTH <;> simp only [hg]

/-- Witness for `decodeRawInternal_missing_geometry`: width present, height
absent. -/
theorem decodeRawInternal_missing_geometry_witness :
    decodeRawInternal specCollab
        (rawDecoder (rawIFD (some 7) (some 4000) none (some (offsetEntry 0 0))) 16 false)
      = Run.mk (some (ThrowRDE "KDC Decoder: Unable to retrieve image size" [])) emptyImage :=
  decodeRawInternal_missing_geometry specCollab
    (rawDecoder (rawIFD (some 7) (some 4000) none (some (offsetEntry 0 0))) 16 false)
    (intEntry [7]) rfl rfl (Or.inr rfl)

/-! ## Support check (C9) -/

/-- Without any directory carrying Model, the support check fails with the
decoder's own error and the camera database is not consulted. -/
theorem checkSupportInternal_no_model (c : Collab) (d : KdcDecoder)
    (hdirs : d.mRootIFD.getIFDsWithTag TiffTag.MODEL = []) :
    checkSupportInternal c d
      = some (ThrowRDE "KDC Support check: Model name not found" []) := by
  unfold checkSupportInternal
  simp only [hdirs]

/-- When the first directory carrying Model has no Make entry, what escapes
the support check is the exception of the unguarded `getEntry(MAKE)`. -/
theorem checkSupportInternal_no_make (c : Collab) (d : KdcDecoder) (d0 : TiffDir)
    (rest : List TiffDir)
    (hdirs : d.mRootIFD.getIFDsWithTag TiffTag.MODEL = d0 :: rest)
    (hmake : d0.mEntry TiffTag.MAKE = none) :
    checkSupportInternal c d = some (c.entryNotFound TiffTag.MAKE) := by
  unfold checkSupportInternal
  simp only [hdirs, TiffDir.getEntry, hmake]

/-- C9 (first Model directory without Make): for a repository whose only
directory carrying Model has no Make entry, checkSupportInternal does not
raise a decoder error of its own — line 91 calls `getEntry(MAKE)` unguarded,
so what escapes is the lookup's exception, whatever the collaborators are
(a parse error with the reference collaborators, never a
`RawDecoderException`) — while the sibling decodeMetaDataInternal tests
`hasEntry(MAKE)` first and raises the decoder's Make-not-found error on the
same input. -/
theorem checkSupportInternal_missing_make :
    (∀ c : Collab,
        checkSupportInternal c
            (rawDecoder (metaIFD [dirOf none (some "DC50")] none none) 0 false)
          = some (c.entryNotFound TiffTag.MAKE))
    ∧ checkSupportInternal specCollab
          (rawDecoder (metaIFD [dirOf none (some "DC50")] none none) 0 false)
        = some (Exc.TiffParserException "TIFF entry not found")
    ∧ (∀ fmt args,
        checkSupportInternal specCollab
            (rawDecoder (metaIFD [dirOf none (some "DC50")] none none) 0 false)
          ≠ some (Exc.RawDecoderException fmt args))
    ∧ (decodeMetaDataInternal specCollab
          (rawDecoder (metaIFD [dirOf none (some "DC50")] none none) 0 false)).thrown
        = some (ThrowRDE "KDC Decoder: Make name not found" []) := by
  refine ⟨fun c => rfl, rfl, ?_, by decide⟩
  intro fmt args h
  have h2 : checkSupportInternal specCollab
      (rawDecoder (metaIFD [dirOf none (some "DC50")] none none) 0 false)
        = some (Exc.TiffParserException "TIFF entry not found") := rfl
  rw [h2] at h
  cases h

/-! ## Flat white-balance block (C10) -/

/-- C10: when the steps before it complete normally (Model and Make strings
read, `setMetaData` returned leaving `r1`, the hidden-IFD path returned
leaving `r2`) and the flat Kodak white-balance block has count 734 or 1502
with readable bytes 148..151, decodeMetaDataInternal returns normally and the
coefficients are exactly (256*b148 + b149)/256, 1, (256*b150 + b151)/256 as
rationals, the rest of the image being as the hidden-IFD path left it. -/
theorem decodeMetaDataInternal_flat_wb (c : Collab) (d : KdcDecoder) (d0 : TiffDir)
    (rest : List TiffDir) (me mo wb : TiffEntry) (make model : String) (r1 r2 : RawImage)
    (b148 b149 b150 b151 : Nat)
    (hdirs : d.mRootIFD.getIFDsWithTag TiffTag.MODEL = d0 :: rest)
    (hme : d0.mEntry TiffTag.MAKE = some me) (hmake : me.getString = .ok make)
    (hmo : d0.mEntry TiffTag.MODEL = some mo) (hmodel : mo.getString = .ok model)
    (hset : c.setMetaData make model "" 0 d.mRaw = Run.mk none r1)
    (hA : kodakIfdWB c d r1 = Run.mk none r2)
    (hwb : d.mRootIFD.getEntryRecursive TiffTag.KODAKWB = some wb)
    (hcount : wb.count = 734 ∨ wb.count = 1502)
    (h148 : wb.getByte 148 = .ok b148) (h149 : wb.getByte 149 = .ok b149)
    (h150 : wb.getByte 150 = .ok b150) (h151 : wb.getByte 151 = .ok b151) :
    decodeMetaDataInternal c d
      = Run.mk none { r2 with
          wbCoeffs := (((256 * b148 + b149 : Nat) : ℚ) / 256, 1,
                       ((256 * b150 + b151 : Nat) : ℚ) / 256) } := by
  have e1 := wbFromBytes_eq b148 b149 (getByte_lt wb 148 b148 h148) (getByte_lt wb 149 b149 h149)
  have e2 := wbFromBytes_eq b150 b151 (getByte_lt wb 150 b150 h150) (getByte_lt wb 151 b151 h151)
  unfold decodeMetaDataInternal
  simp only [hdirs, TiffDir.hasEntry, TiffDir.getEntry, hme, hmo, hmake, hmodel, hset, hA,
    Option.isSome_some, Bool.not_true, Bool.false_eq_true, if_false]
  unfold kodakWB
  simp only [hwb, hcount, if_true, h148, h149, h150, h151, e1, e2]
  rfl

/-- Witness for `decodeMetaDataInternal_flat_wb`: a block of count 734 with
bytes 148..151 equal to 0x01, 0x00, 0x01, 0x40 gives the coefficients
1, 1, 5/4. -/
theorem decodeMetaDataInternal_flat_wb_witness :
    decodeMetaDataInternal specCollab
        (rawDecoder (metaIFD [dirOf (some "KODAK") (some "DC50")] none
          (some (byteEntry 734 (wbBlock 0x01 0x00 0x01 0x40)))) 0 false)
      = Run.mk none { emptyImage with
          wbCoeffs := (((256 * 0x01 + 0x00 : Nat) : ℚ) / 256, 1,
                       ((256 * 0x01 + 0x40 : Nat) : ℚ) / 256) }
    ∧ ((((256 * 0x01 + 0x00 : Nat) : ℚ) / 256, (1 : ℚ), ((256 * 0x01 + 0x40 : Nat) : ℚ) / 256)
        = ((1 : ℚ), (1 : ℚ), (5 / 4 : ℚ))) :=
  ⟨decodeMetaDataInternal_flat_wb specCollab
      (rawDecoder (metaIFD [dirOf (some "KODAK") (some "DC50")] none
        (some (byteEntry 734 (wbBlock 0x01 0x00 0x01 0x40)))) 0 false)
      (dirOf (some "KODAK") (some "DC50")) [] (strEntry "KODAK") (strEntry "DC50")
      (byteEntry 734 (wbBlock 0x01 0x00 0x01 0x40)) "KODAK" "DC50" emptyImage emptyImage
      0x01 0x00 0x01 0x40 rfl rfl rfl rfl rfl rfl rfl rfl (Or.inl rfl) rfl rfl rfl rfl,
   by norm_num⟩

/-! ## Auxiliary facts about `decodeMetaDataInternal` -/

/-- Once Model and Make have been read and `setMetaData` has returned, the
method is the hidden-IFD path followed by the flat-block path. -/
theorem decodeMetaDataInternal_prelude (c : Collab) (d : KdcDecoder) (d0 : TiffDir)
    (rest : List TiffDir) (me mo : TiffEntry) (make model : String) (r1 : RawImage)
    (hdirs : d.mRootIFD.getIFDsWithTag TiffTag.MODEL = d0 :: rest)
    (hme : d0.mEntry TiffTag.MAKE = some me) (hmake : me.getString = .ok make)
    (hmo : d0.mEntry TiffTag.MODEL = some mo) (hmodel : mo.getString = .ok model)
    (hset : c.setMetaData make model "" 0 d.mRaw = Run.mk none r1) :
    decodeMetaDataInternal c d
      = match kodakIfdWB c d r1 with
        | Run.mk (some e) r2 => Run.mk (some e) r2
        | Run.mk none r2 => kodakWB d r2 := by
  unfold decodeMetaDataInternal
  simp only [hdirs, TiffDir.hasEntry, TiffDir.getEntry, hme, hmo, hmake, hmodel, hset,
    Option.isSome_some, Bool.not_true, Bool.false_eq_true, if_false]

/-- The hidden-IFD path when the nested tree parses and holds a white-balance
entry of count 3 with three readable floats. -/
theorem kodakIfdWB_nested (c : Collab) (d : KdcDecoder) (r : RawImage)
    (ifdoffset kodakwb : TiffEntry) (o : Nat) (kodakifd : TiffIFD) (f0 f1 f2 : ℚ)
    (hifd : d.mRootIFD.getEntryRecursive TiffTag.KODAK_IFD2 = some ifdoffset)
    (ho : ifdoffset.getInt 0 = .ok o)
    (hparse : c.parseRootIFD ifdoffset o = .ok kodakifd)
    (hwb : kodakifd.getEntryRecursive TiffTag.KODAK_KDC_WB = some kodakwb)
    (hcount : kodakwb.count = 3)
    (h0 : kodakwb.getFloat 0 = .ok f0) (h1 : kodakwb.getFloat 1 = .ok f1)
    (h2 : kodakwb.getFloat 2 = .ok f2) :
    kodakIfdWB c d r = Run.mk none (((r.setWb0 f0).setWb1 f1).setWb2 f2) := by
  unfold kodakIfdWB kodakIfdBody
  simp only [hifd, ho, hparse, hwb, hcount, if_true, h0, h1, h2]

/-- The flat-block path does nothing when the block is absent. -/
theorem kodakWB_absent (d : KdcDecoder) (r : RawImage)
    (hwb : d.mRootIFD.getEntryRecursive TiffTag.KODAKWB = none) :
    kodakWB d r = Run.mk none r := by
  unfold kodakWB
  simp only [hwb]

/-- The flat-block path does nothing when the count is neither 734 nor 1502. -/
theorem kodakWB_other_count (d : KdcDecoder) (r : RawImage) (wb : TiffEntry)
    (hwb : d.mRootIFD.getEntryRecursive TiffTag.KODAKWB = some wb)
    (h734 : wb.count ≠ 734) (h1502 : wb.count ≠ 1502) :
    kodakWB d r = Run.mk none r := by
  unfold kodakWB
  simp only [hwb, h734, h1502, or_self, if_false]

/-- The flat-block path with a block of a known size and readable bytes. -/
theorem kodakWB_flat (d : KdcDecoder) (r : RawImage) (wb : TiffEntry)
    (b148 b149 b150 b151 : Nat)
    (hwb : d.mRootIFD.getEntryRecursive TiffTag.KODAKWB = some wb)
    (hcount : wb.count = 734 ∨ wb.count = 1502)
    (h148 : wb.getByte 148 = .ok b148) (h149 : wb.getByte 149 = .ok b149)
    (h150 : wb.getByte 150 = .ok b150) (h151 : wb.getByte 151 = .ok b151) :
    kodakWB d r
      = Run.mk none { r with
          wbCoeffs := (((256 * b148 + b149 : Nat) : ℚ) / 256, 1,
                       ((256 * b150 + b151 : Nat) : ℚ) / 256) } := by
  have e1 := wbFromBytes_eq b148 b149 (getByte_lt wb 148 b148 h148) (getByte_lt wb 149 b149 h149)
  have e2 := wbFromBytes_eq b150 b151 (getByte_lt wb 150 b150 h150) (getByte_lt wb 151 b151 h151)
  unfold kodakWB
  simp only [hwb, hcount, if_true, h148, h149, h150, h151, e1, e2]
  rfl

/-! ## Hidden-IFD white balance (C11) and precedence of the flat block (C12) -/

/-- C11: when the steps before it complete normally (Model and Make strings
read, `setMetaData` returned leaving `r1`), the hidden-IFD pointer exists, the
nested tree built at its offset parses and holds a white-balance entry of
count 3 with values f0, f1, f2, and no flat Kodak white-balance block is
present, decodeMetaDataInternal returns normally and the coefficients are
exactly (f0, f1, f2), nothing else of the image being changed. -/
theorem decodeMetaDataInternal_nested_wb (c : Collab) (d : KdcDecoder) (d0 : TiffDir)
    (rest : List TiffDir) (me mo ifdoffset kodakwb : TiffEntry) (make model : String)
    (r1 : RawImage) (o : Nat) (kodakifd : TiffIFD) (f0 f1 f2 : ℚ)
    (hdirs : d.mRootIFD.getIFDsWithTag TiffTag.MODEL = d0 :: rest)
    (hme : d0.mEntry TiffTag.MAKE = some me) (hmake : me.getString = .ok make)
    (hmo : d0.mEntry TiffTag.MODEL = some mo) (hmodel : mo.getString = .ok model)
    (hset : c.setMetaData make model "" 0 d.mRaw = Run.mk none r1)
    (hifd : d.mRootIFD.getEntryRecursive TiffTag.KODAK_IFD2 = some ifdoffset)
    (ho : ifdoffset.getInt 0 = .ok o)
    (hparse : c.parseRootIFD ifdoffset o = .ok kodakifd)
    (hwb : kodakifd.getEntryRecursive TiffTag.KODAK_KDC_WB = some kodakwb)
    (hcount : kodakwb.count = 3)
    (h0 : kodakwb.getFloat 0 = .ok f0) (h1 : kodakwb.getFloat 1 = .ok f1)
    (h2 : kodakwb.getFloat 2 = .ok f2)
    (hflat : d.mRootIFD.getEntryRecursive TiffTag.KODAKWB = none) :
    decodeMetaDataInternal c d = Run.mk none { r1 with wbCoeffs := (f0, f1, f2) } := by
  rw [decodeMetaDataInternal_prelude c d d0 rest me mo make model r1 hdirs hme hmake hmo hmodel
      hset,
    kodakIfdWB_nested c d r1 ifdoffset kodakwb o kodakifd f0 f1 f2 hifd ho hparse hwb hcount
      h0 h1 h2]
  simp only
  rw [kodakWB_absent d _ hflat]
  rfl

/-- Witness for `decodeMetaDataInternal_nested_wb`: a nested white-balance
entry with the floats 2, 1, 3/2 and no flat block gives the coefficients
(2, 1, 3/2). -/
theorem decodeMetaDataInternal_nested_wb_witness :
    decodeMetaDataInternal (nestedCollab (wbIFD (some (floatEntry 3 [2, 1, 3 / 2]))))
        (rawDecoder (metaIFD [dirOf (some "KODAK") (some "DC50")]
          (some (intEntry [4096])) none) 0 false)
      = Run.mk none { emptyImage with wbCoeffs := (2, 1, 3 / 2) } :=
  decodeMetaDataInternal_nested_wb (nestedCollab (wbIFD (some (floatEntry 3 [2, 1, 3 / 2]))))
    (rawDecoder (metaIFD [dirOf (some "KODAK") (some "DC50")]
      (some (intEntry [4096])) none) 0 false)
    (dirOf (some "KODAK") (some "DC50")) [] (strEntry "KODAK") (strEntry "DC50")
    (intEntry [4096]) (floatEntry 3 [2, 1, 3 / 2]) "KODAK" "DC50" emptyImage 4096
    (wbIFD (some (floatEntry 3 [2, 1, 3 / 2]))) 2 1 (3 / 2)
    rfl rfl rfl rfl rfl rfl rfl rfl rfl rfl rfl rfl rfl rfl rfl

/-- C12: when both extraction paths succeed — a nested white-balance entry of
count 3 with readable floats and a flat block of count 734 or 1502 with
readable bytes 148..151 — the coefficients after decodeMetaDataInternal are
those of the flat block, and two runs that differ only in the nested tree the
parser delivers (entries `wbA`, `wbB` with floats f0..f2 and g0..g2) end in the
same result. -/
theorem decodeMetaDataInternal_flat_overrides_nested (cA cB : Collab) (d : KdcDecoder)
    (d0 : TiffDir) (rest : List TiffDir) (me mo ifdoffset wbA wbB flat : TiffEntry)
    (make model : String) (r1 : RawImage) (o : Nat) (ifdA ifdB : TiffIFD)
    (f0 f1 f2 g0 g1 g2 : ℚ) (b148 b149 b150 b151 : Nat)
    (hdirs : d.mRootIFD.getIFDsWithTag TiffTag.MODEL = d0 :: rest)
    (hme : d0.mEntry TiffTag.MAKE = some me) (hmake : me.getString = .ok make)
    (hmo : d0.mEntry TiffTag.MODEL = some mo) (hmodel : mo.getString = .ok model)
    (hsetA : cA.setMetaData make model "" 0 d.mRaw = Run.mk none r1)
    (hsetB : cB.setMetaData make model "" 0 d.mRaw = Run.mk none r1)
    (hifd : d.mRootIFD.getEntryRecursive TiffTag.KODAK_IFD2 = some ifdoffset)
    (ho : ifdoffset.getInt 0 = .ok o)
    (hparseA : cA.parseRootIFD ifdoffset o = .ok ifdA)
    (hparseB : cB.parseRootIFD ifdoffset o = .ok ifdB)
    (hwbA : ifdA.getEntryRecursive TiffTag.KODAK_KDC_WB = some wbA)
    (hwbB : ifdB.getEntryRecursive TiffTag.KODAK_KDC_WB = some wbB)
    (hcountA : wbA.count = 3) (hcountB : wbB.count = 3)
    (hf0 : wbA.getFloat 0 = .ok f0) (hf1 : wbA.getFloat 1 = .ok f1)
    (hf2 : wbA.getFloat 2 = .ok f2)
    (hg0 : wbB.getFloat 0 = .ok g0) (hg1 : wbB.getFloat 1 = .ok g1)
    (hg2 : wbB.getFloat 2 = .ok g2)
    (hflat : d.mRootIFD.getEntryRecursive TiffTag.KODAKWB = some flat)
    (hcount : flat.count = 734 ∨ flat.count = 1502)
    (h148 : flat.getByte 148 = .ok b148) (h149 : flat.getByte 149 = .ok b149)
    (h150 : flat.getByte 150 = .ok b150) (h151 : flat.getByte 151 = .ok b151) :
    decodeMetaDataInternal cA d
        = Run.mk none { r1 with
            wbCoeffs := (((256 * b148 + b149 : Nat) : ℚ) / 256, 1,
                         ((256 * b150 + b151 : Nat) : ℚ) / 256) }
    ∧ decodeMetaDataInternal cB d = decodeMetaDataInternal cA d := by
  have hA : decodeMetaDataInternal cA d
      = Run.mk none { r1 with
          wbCoeffs := (((256 * b148 + b149 : Nat) : ℚ) / 256, 1,
                       ((256 * b150 + b151 : Nat) : ℚ) / 256) } := by
    rw [decodeMetaDataInternal_prelude cA d d0 rest me mo make model r1 hdirs hme hmake hmo
        hmodel hsetA,
      kodakIfdWB_nested cA d r1 ifdoffset wbA o ifdA f0 f1 f2 hifd ho hparseA hwbA hcountA
        hf0 hf1 hf2]
    simp only
    rw [kodakWB_flat d _ flat b148 b149 b150 b151 hflat hcount h148 h149 h150 h151]
    rfl
  have hB : decodeMetaDataInternal cB d
      = Run.mk none { r1 with
          wbCoeffs := (((256 * b148 + b149 : Nat) : ℚ) / 256, 1,
                       ((256 * b150 + b151 : Nat) : ℚ) / 256) } := by
    rw [decodeMetaDataInternal_prelude cB d d0 rest me mo make model r1 hdirs hme hmake hmo
        hmodel hsetB,
      kodakIfdWB_nested cB d r1 ifdoffset wbB o ifdB g0 g1 g2 hifd ho hparseB hwbB hcountB
        hg0 hg1 hg2]
    simp only
    rw [kodakWB_flat d _ flat b148 b149 b150 b151 hflat hcount h148 h149 h150 h151]
    rfl
  exact ⟨hA, hB.trans hA.symm⟩

/-- Witness for `decodeMetaDataInternal_flat_overrides_nested`: nested floats
(2, 1, 3/2) in one run and (3, 1, 5/2) in the other, with a flat block of
count 734 and bytes 0x01, 0x00, 0x01, 0x40; both runs end with the flat
coefficients. -/
theorem decodeMetaDataInternal_flat_overrides_nested_witness :
    decodeMetaDataInternal (nestedCollab (wbIFD (some (floatEntry 3 [2, 1, 3 / 2]))))
        (rawDecoder (metaIFD [dirOf (some "KODAK") (some "DC50")] (some (intEntry [4096]))
          (some (byteEntry 734 (wbBlock 0x01 0x00 0x01 0x40)))) 0 false)
      = Run.mk none { emptyImage with
          wbCoeffs := (((256 * 0x01 + 0x00 : Nat) : ℚ) / 256, 1,
                       ((256 * 0x01 + 0x40 : Nat) : ℚ) / 256) }
    ∧ decodeMetaDataInternal (nestedCollab (wbIFD (some (floatEntry 3 [3, 1, 5 / 2]))))
        (rawDecoder (metaIFD [dirOf (some "KODAK") (some "DC50")] (some (intEntry [4096]))
          (some (byteEntry 734 (wbBlock 0x01 0x00 0x01 0x40)))) 0 false)
      = decodeMetaDataInternal (nestedCollab (wbIFD (some (floatEntry 3 [2, 1, 3 / 2]))))
        (rawDecoder (metaIFD [dirOf (some "KODAK") (some "DC50")] (some (intEntry [4096]))
          (some (byteEntry 734 (wbBlock 0x01 0x00 0x01 0x40)))) 0 false) :=
  decodeMetaDataInternal_flat_overrides_nested
    (nestedCollab (wbIFD (some (floatEntry 3 [2, 1, 3 / 2]))))
    (nestedCollab (wbIFD (some (floatEntry 3 [3, 1, 5 / 2]))))
    (rawDecoder (metaIFD [dirOf (some "KODAK") (some "DC50")] (some (intEntry [4096]))
      (some (byteEntry 734 (wbBlock 0x01 0x00 0x01 0x40)))) 0 false)
    (dirOf (some "KODAK") (some "DC50")) [] (strEntry "KODAK") (strEntry "DC50")
    (intEntry [4096]) (floatEntry 3 [2, 1, 3 / 2]) (floatEntry 3 [3, 1, 5 / 2])
    (byteEntry 734 (wbBlock 0x01 0x00 0x01 0x40)) "KODAK" "DC50" emptyImage 4096
    (wbIFD (some (floatEntry 3 [2, 1, 3 / 2]))) (wbIFD (some (floatEntry 3 [3, 1, 5 / 2])))
    2 1 (3 / 2) 3 1 (5 / 2) 0x01 0x00 0x01 0x40
    rfl rfl rfl rfl rfl rfl rfl rfl rfl rfl rfl rfl rfl rfl rfl rfl rfl rfl rfl rfl rfl
    rfl (Or.inl rfl) rfl rfl rfl rfl

/-! ## Parse errors in the hidden-IFD path (C13) -/

/-- The `try` block touches nothing but the coefficients. -/
theorem kodakIfdBody_frame (c : Collab) (ifdoffset : TiffEntry) (r : RawImage) :
    (kodakIfdBody c ifdoffset r).mRaw.dim = r.dim
    ∧ (kodakIfdBody c ifdoffset r).mRaw.data = r.data
    ∧ (kodakIfdBody c ifdoffset r).mRaw.errors = r.errors := by
  unfold kodakIfdBody
  repeat' split
  all_goals exact ⟨rfl, rfl, rfl⟩

/-- A parse error leaving the `try` block is turned into a warning and the
path returns normally. -/
theorem kodakIfdWB_caught (c : Collab) (d : KdcDecoder) (r : RawImage) (ifdoffset : TiffEntry)
    (what : String)
    (hifd : d.mRootIFD.getEntryRecursive TiffTag.KODAK_IFD2 = some ifdoffset)
    (hthrown : (kodakIfdBody c ifdoffset r).thrown = some (Exc.TiffParserException what)) :
    kodakIfdWB c d r = Run.mk none ((kodakIfdBody c ifdoffset r).mRaw.setError what) := by
  unfold kodakIfdWB
  simp only [hifd]
  rcases hb : kodakIfdBody c ifdoffset r with ⟨t, r2⟩
  rw [hb] at hthrown
  simp only at hthrown
  subst hthrown
  rfl

/-- C13, counterexample: the nested white-balance entry has count 3, its first
float reads as 2 and reading its second float raises a parse error.
decodeMetaDataInternal returns normally with the warning attached, but the
first coefficient has been overwritten: the coefficients are (2, 1, 1), not
the (1, 1, 1) they were before the hidden-IFD path ran. -/
theorem decodeMetaDataInternal_partial_write :
    (floatEntry 3 [2]).getFloat 0 = .ok 2
    ∧ (floatEntry 3 [2]).getFloat 1
        = .error (Exc.TiffParserException "float value unreadable")
    ∧ (decodeMetaDataInternal (nestedCollab (wbIFD (some (floatEntry 3 [2]))))
        (rawDecoder (metaIFD [dirOf (some "KODAK") (some "DC50")]
          (some (intEntry [4096])) none) 0 false)).thrown = none
    ∧ (decodeMetaDataInternal (nestedCollab (wbIFD (some (floatEntry 3 [2]))))
        (rawDecoder (metaIFD [dirOf (some "KODAK") (some "DC50")]
          (some (intEntry [4096])) none) 0 false)).mRaw.errors = ["float value unreadable"]
    ∧ (decodeMetaDataInternal (nestedCollab (wbIFD (some (floatEntry 3 [2]))))
        (rawDecoder (metaIFD [dirOf (some "KODAK") (some "DC50")]
          (some (intEntry [4096])) none) 0 false)).mRaw.wbCoeffs = (2, 1, 1)
    ∧ (decodeMetaDataInternal (nestedCollab (wbIFD (some (floatEntry 3 [2]))))
        (rawDecoder (metaIFD [dirOf (some "KODAK") (some "DC50")]
          (some (intEntry [4096])) none) 0 false)).mRaw.wbCoeffs
        ≠ (rawDecoder (metaIFD [dirOf (some "KODAK") (some "DC50")]
          (some (intEntry [4096])) none) 0 false).mRaw.wbCoeffs := by
  refine ⟨rfl, rfl, rfl, rfl, rfl, ?_⟩
  have h : (decodeMetaDataInternal (nestedCollab (wbIFD (some (floatEntry 3 [2]))))
        (rawDecoder (metaIFD [dirOf (some "KODAK") (some "DC50")]
          (some (intEntry [4096])) none) 0 false)).mRaw.wbCoeffs = (2, 1, 1) := rfl
  have h2 : (rawDecoder (metaIFD [dirOf (some "KODAK") (some "DC50")]
          (some (intEntry [4096])) none) 0 false).mRaw.wbCoeffs = (1, 1, 1) := rfl
  rw [h, h2]
  intro heq
  have h3 : (2 : ℚ) = 1 := congrArg Prod.fst heq
  norm_num at h3

/-- C13, amended: with Model and Make read and `setMetaData` returned leaving
`r1`, if the `try` block of the hidden-IFD path raises a parse error `what`,
then the error is caught, `what` is attached as a warning and the method
continues with the flat-block path on that image (so it returns normally when
the flat block is absent, and with the flat-path coefficients when the block
has a known size and readable bytes).  The `try` block changes nothing but
coefficients, and it leaves all three coefficients as they were whenever the
error is raised by reading the pointer, by constructing the nested tree or by
reading the first float, that is before any coefficient has been stored. -/
theorem decodeMetaDataInternal_nested_parse_error (c : Collab) (d : KdcDecoder) (d0 : TiffDir)
    (rest : List TiffDir) (me mo ifdoffset : TiffEntry) (make model : String) (r1 : RawImage)
    (what : String)
    (hdirs : d.mRootIFD.getIFDsWithTag TiffTag.MODEL = d0 :: rest)
    (hme : d0.mEntry TiffTag.MAKE = some me) (hmake : me.getString = .ok make)
    (hmo : d0.mEntry TiffTag.MODEL = some mo) (hmodel : mo.getString = .ok model)
    (hset : c.setMetaData make model "" 0 d.mRaw = Run.mk none r1)
    (hifd : d.mRootIFD.getEntryRecursive TiffTag.KODAK_IFD2 = some ifdoffset)
    (hthrown : (kodakIfdBody c ifdoffset r1).thrown = some (Exc.TiffParserException what)) :
    decodeMetaDataInternal c d = kodakWB d ((kodakIfdBody c ifdoffset r1).mRaw.setError what)
    ∧ (d.mRootIFD.getEntryRecursive TiffTag.KODAKWB = none →
        decodeMetaDataInternal c d
          = Run.mk none ((kodakIfdBody c ifdoffset r1).mRaw.setError what))
    ∧ (∀ flat b148 b149 b150 b151,
        d.mRootIFD.getEntryRecursive TiffTag.KODAKWB = some flat →
        (flat.count = 734 ∨ flat.count = 1502) →
        flat.getByte 148 = .ok b148 → flat.getByte 149 = .ok b149 →
        flat.getByte 150 = .ok b150 → flat.getByte 151 = .ok b151 →
        decodeMetaDataInternal c d
          = Run.mk none { (kodakIfdBody c ifdoffset r1).mRaw.setError what with
              wbCoeffs := (((256 * b148 + b149 : Nat) : ℚ) / 256, 1,
                           ((256 * b150 + b151 : Nat) : ℚ) / 256) })
    ∧ ((kodakIfdBody c ifdoffset r1).mRaw.dim = r1.dim
        ∧ (kodakIfdBody c ifdoffset r1).mRaw.data = r1.data
        ∧ (kodakIfdBody c ifdoffset r1).mRaw.errors = r1.errors)
    ∧ (∀ e, ifdoffset.getInt 0 = .error e → (kodakIfdBody c ifdoffset r1).mRaw = r1)
    ∧ (∀ o e, ifdoffset.getInt 0 = .ok o → c.parseRootIFD ifdoffset o = .error e →
        (kodakIfdBody c ifdoffset r1).mRaw = r1)
    ∧ (∀ o kodakifd kodakwb e, ifdoffset.getInt 0 = .ok o →
        c.parseRootIFD ifdoffset o = .ok kodakifd →
        kodakifd.getEntryRecursive TiffTag.KODAK_KDC_WB = some kodakwb →
        kodakwb.getFloat 0 = .error e →
        (kodakIfdBody c ifdoffset r1).mRaw = r1) := by
  have hmain : decodeMetaDataInternal c d
      = kodakWB d ((kodakIfdBody c ifdoffset r1).mRaw.setError what) := by
    rw [decodeMetaDataInternal_prelude c d d0 rest me mo make model r1 hdirs hme hmake hmo
        hmodel hset, kodakIfdWB_caught c d r1 ifdoffset what hifd hthrown]
  refine ⟨hmain, fun hflat => ?_, fun flat b148 b149 b150 b151 hflat hcount h148 h149 h150 h151 => ?_,
    kodakIfdBody_frame c ifdoffset r1, fun e he => ?_, fun o e ho he => ?_,
    fun o kodakifd kodakwb e ho hp hwb he => ?_⟩
  · rw [hmain, kodakWB_absent d _ hflat]
  · rw [hmain, kodakWB_flat d _ flat b148 b149 b150 b151 hflat hcount h148 h149 h150 h151]
  · unfold kodakIfdBody
    simp only [he]
  · unfold kodakIfdBody
    simp only [ho, he]
  · unfold kodakIfdBody
    simp only [ho, hp, hwb, he]
    split <;> rfl

/-- Witness for `decodeMetaDataInternal_nested_parse_error`: the parser rejects
the hidden IFD with a parse error and there is no flat block; the method
returns normally, the warning is attached and the coefficients are the
default ones. -/
theorem decodeMetaDataInternal_nested_parse_error_witness :
    decodeMetaDataInternal specCollab
        (rawDecoder (metaIFD [dirOf (some "KODAK") (some "DC50")]
          (some (intEntry [4096])) none) 0 false)
      = Run.mk none (emptyImage.setError "invalid IFD offset")
    ∧ (emptyImage.setError "invalid IFD offset").wbCoeffs = (1, 1, 1) :=
  ⟨(decodeMetaDataInternal_nested_parse_error specCollab
      (rawDecoder (metaIFD [dirOf (some "KODAK") (some "DC50")]
        (some (intEntry [4096])) none) 0 false)
      (dirOf (some "KODAK") (some "DC50")) [] (strEntry "KODAK") (strEntry "DC50")
      (intEntry [4096]) "KODAK" "DC50" emptyImage "invalid IFD offset"
      rfl rfl rfl rfl rfl rfl rfl rfl).2.1 rfl,
   rfl⟩

/-! ## Neither white-balance path applies (C14) -/

/-- The hidden-IFD path does nothing when the pointer is absent. -/
theorem kodakIfdWB_absent (c : Collab) (d : KdcDecoder) (r : RawImage)
    (hifd : d.mRootIFD.getEntryRecursive TiffTag.KODAK_IFD2 = none) :
    kodakIfdWB c d r = Run.mk none r := by
  unfold kodakIfdWB
  simp only [hifd]

/-- The hidden-IFD path does nothing when the nested tree parses but has no
white-balance entry of count 3. -/
theorem kodakIfdWB_no_wb (c : Collab) (d : KdcDecoder) (r : RawImage)
    (ifdoffset : TiffEntry) (o : Nat) (kodakifd : TiffIFD)
    (hifd : d.mRootIFD.getEntryRecursive TiffTag.KODAK_IFD2 = some ifdoffset)
    (ho : ifdoffset.getInt 0 = .ok o)
    (hparse : c.parseRootIFD ifdoffset o = .ok kodakifd)
    (hwb : kodakifd.getEntryRecursive TiffTag.KODAK_KDC_WB = none
      ∨ ∃ kodakwb, kodakifd.getEntryRecursive TiffTag.KODAK_KDC_WB = some kodakwb
          ∧ kodakwb.count ≠ 3) :
    kodakIfdWB c d r = Run.mk none r := by
  unfold kodakIfdWB kodakIfdBody
  rcases hwb with hwb | ⟨kodakwb, hwb, hcount⟩
  · simp only [hifd, ho, hparse, hwb]
  · simp only [hifd, ho, hparse, hwb, hcount, if_false]

/-- C14: with Model and Make read and `setMetaData` returned leaving `r1`, if
neither extraction path applies — the hidden-IFD pointer is absent, or the
nested tree has no white-balance entry, or that entry's count is not 3; and
the flat block is absent or its count is neither 734 nor 1502 — then
decodeMetaDataInternal returns normally with the image exactly as
`setMetaData` left it: no error, no warning added, coefficients untouched.  In
particular the coefficients and warnings equal their values on entry whenever
`setMetaData` does not change them. -/
theorem decodeMetaDataInternal_no_path (c : Collab) (d : KdcDecoder) (d0 : TiffDir)
    (rest : List TiffDir) (me mo : TiffEntry) (make model : String) (r1 : RawImage)
    (hdirs : d.mRootIFD.getIFDsWithTag TiffTag.MODEL = d0 :: rest)
    (hme : d0.mEntry TiffTag.MAKE = some me) (hmake : me.getString = .ok make)
    (hmo : d0.mEntry TiffTag.MODEL = some mo) (hmodel : mo.getString = .ok model)
    (hset : c.setMetaData make model "" 0 d.mRaw = Run.mk none r1)
    (hA : d.mRootIFD.getEntryRecursive TiffTag.KODAK_IFD2 = none
      ∨ ∃ ifdoffset o kodakifd,
          d.mRootIFD.getEntryRecursive TiffTag.KODAK_IFD2 = some ifdoffset
          ∧ ifdoffset.getInt 0 = .ok o
          ∧ c.parseRootIFD ifdoffset o = .ok kodakifd
          ∧ (kodakifd.getEntryRecursive TiffTag.KODAK_KDC_WB = none
              ∨ ∃ kodakwb, kodakifd.getEntryRecursive TiffTag.KODAK_KDC_WB = some kodakwb
                  ∧ kodakwb.count ≠ 3))
    (hB : d.mRootIFD.getEntryRecursive TiffTag.KODAKWB = none
      ∨ ∃ flat, d.mRootIFD.getEntryRecursive TiffTag.KODAKWB = some flat
          ∧ flat.count ≠ 734 ∧ flat.count ≠ 1502) :
    decodeMetaDataInternal c d = Run.mk none r1
    ∧ (r1.wbCoeffs = d.mRaw.wbCoeffs →
        (decodeMetaDataInternal c d).mRaw.wbCoeffs = d.mRaw.wbCoeffs)
    ∧ (r1.errors = d.mRaw.errors →
        (decodeMetaDataInternal c d).mRaw.errors = d.mRaw.errors) := by
  have hpathA : kodakIfdWB c d r1 = Run.mk none r1 := by
    rcases hA with hifd | ⟨ifdoffset, o, kodakifd, hifd, ho, hparse, hwb⟩
    · exact kodakIfdWB_absent c d r1 hifd
    · exact kodakIfdWB_no_wb c d r1 ifdoffset o kodakifd hifd ho hparse hwb
  have hpathB : kodakWB d r1 = Run.mk none r1 := by
    rcases hB with hflat | ⟨flat, hflat, h734, h1502⟩
    · exact kodakWB_absent d r1 hflat
    · exact kodakWB_other_count d r1 flat hflat h734 h1502
  have hmain : decodeMetaDataInternal c d = Run.mk none r1 := by
    rw [decodeMetaDataInternal_prelude c d d0 rest me mo make model r1 hdirs hme hmake hmo
        hmodel hset, hpathA]
    exact hpathB
  refine ⟨hmain, fun h => ?_, fun h => ?_⟩
  · rw [hmain]
    exact h
  · rw [hmain]
    exact h

/-- Witness for `decodeMetaDataInternal_no_path`: the nested tree holds a
white-balance entry of count 4 and the flat block has count 100; the image
comes back as it went in, with the default coefficients and no warning. -/
theorem decodeMetaDataInternal_no_path_witness :
    decodeMetaDataInternal (nestedCollab (wbIFD (some (floatEntry 4 [2, 1, 3 / 2, 1]))))
        (rawDecoder (metaIFD [dirOf (some "KODAK") (some "DC50")] (some (intEntry [4096]))
          (some (byteEntry 100 (wbBlock 0x01 0x00 0x01 0x40)))) 0 false)
      = Run.mk none emptyImage
    ∧ emptyImage.wbCoeffs = (1, 1, 1) ∧ emptyImage.errors = [] :=
  ⟨(decodeMetaDataInternal_no_path (nestedCollab (wbIFD (some (floatEntry 4 [2, 1, 3 / 2, 1]))))
      (rawDecoder (metaIFD [dirOf (some "KODAK") (some "DC50")] (some (intEntry [4096]))
        (some (byteEntry 100 (wbBlock 0x01 0x00 0x01 0x40)))) 0 false)
      (dirOf (some "KODAK") (some "DC50")) [] (strEntry "KODAK") (strEntry "DC50")
      "KODAK" "DC50" emptyImage rfl rfl rfl rfl rfl rfl
      (Or.inr ⟨intEntry [4096], 4096, wbIFD (some (floatEntry 4 [2, 1, 3 / 2, 1])), rfl, rfl, rfl,
        Or.inr ⟨floatEntry 4 [2, 1, 3 / 2, 1], rfl, by decide⟩⟩)
      (Or.inr ⟨byteEntry 100 (wbBlock 0x01 0x00 0x01 0x40), rfl, by decide, by decide⟩)).1,
   rfl, rfl⟩

/-! ## Errors of the fatal conditions (C15) -/

/-- The values thrown by the `ThrowRDE` calls of the decoder — Model not found
(support check and metadata), Make not found, compression setting not found,
unsupported compression (for every offending value `v`), image size not
retrievable, offset entry not found, offset out of bounds — are pairwise
distinct, and the sample inputs show each of them being raised. -/
theorem decoder_errors_pairwise_distinct (v : Int) :
    List.Pairwise (fun a b => a ≠ b)
      [ThrowRDE "KDC Support check: Model name not found" [],
       ThrowRDE "KDC Decoder: Model name found" [],
       ThrowRDE "KDC Decoder: Make name not found" [],
       ThrowRDE "KDC Decoder: Couldn't find compression setting" [],
       ThrowRDE "KDC Decoder: Unsupported compression %d" [v],
       ThrowRDE "KDC Decoder: Unable to retrieve image size" [],
       ThrowRDE "KDC Decoder: Couldn't find the KDC offset" [],
       ThrowRDE "KDC Decoder: offset is out of bounds" []]
    ∧ checkSupportInternal specCollab (rawDecoder (metaIFD [] none none) 0 false)
        = some (ThrowRDE "KDC Support check: Model name not found" [])
    ∧ (decodeMetaDataInternal specCollab (rawDecoder (metaIFD [] none none) 0 false)).thrown
        = some (ThrowRDE "KDC Decoder: Model name found" [])
    ∧ (decodeMetaDataInternal specCollab
        (rawDecoder (metaIFD [dirOf none (some "DC50")] none none) 0 false)).thrown
        = some (ThrowRDE "KDC Decoder: Make name not found" [])
    ∧ (decodeRawInternal specCollab (rawDecoder (rawIFD none (some 4000) (some 3000)
        (some (offsetEntry 0x1000 0x2000))) 0x4000 false)).thrown
        = some (ThrowRDE "KDC Decoder: Couldn't find compression setting" [])
    ∧ (decodeRawInternal specCollab (rawDecoder (rawIFD (some 5) (some 4000) (some 3000)
        (some (offsetEntry 0x1000 0x2000))) 0x4000 false)).thrown
        = some (ThrowRDE "KDC Decoder: Unsupported compression %d" [5])
    ∧ (decodeRawInternal specCollab (rawDecoder (rawIFD (some 7) none (some 3000)
        (some (offsetEntry 0x1000 0x2000))) 0x4000 false)).thrown
        = some (ThrowRDE "KDC Decoder: Unable to retrieve image size" [])
    ∧ (decodeRawInternal specCollab (rawDecoder (rawIFD (some 7) (some 4000) (some 3000)
        none) 0x4000 false)).thrown
        = some (ThrowRDE "KDC Decoder: Couldn't find the KDC offset" [])
    ∧ (decodeRawInternal specCollab (rawDecoder (rawIFD (some 7) (some 4000) (some 3000)
        (some (offsetEntry 0x1000 0x2000))) 0x2000 false)).thrown
        = some (ThrowRDE "KDC Decoder: offset is out of bounds" []) := by
  refine ⟨?_, rfl, rfl, rfl, rfl, by decide, rfl, rfl, by decide⟩
  simp [ThrowRDE]

/-! ## Invocation of the unpacker (C16) -/

/-- On every input the method either throws during resolution, the same
exception whatever the collaborators are and with `mRaw` untouched, or all the
raw-decode tags are present and readable with Compression 7 and a resolved
offset not greater than the file size. -/
theorem decodeRawInternal_cases (d : KdcDecoder) :
    (∃ e, ∀ c, decodeRawInternal c d = Run.mk (some e) d.mRaw)
    ∨ (∃ ce ew eh offset w h e4 e12,
        d.mRootIFD.getEntryRecursive TiffTag.COMPRESSION = some ce
        ∧ ce.getInt 0 = .ok 7
        ∧ d.mRootIFD.getEntryRecursive TiffTag.KODAK_KDC_WIDTH = some ew
        ∧ d.mRootIFD.getEntryRecursive TiffTag.KODAK_KDC_HEIGHT = some eh
        ∧ ew.getInt 0 = .ok w ∧ eh.getInt 0 = .ok h
        ∧ d.mRootIFD.getEntryRecursive TiffTag.KODAK_KDC_OFFSET = some offset
        ∧ 13 ≤ offset.count
        ∧ offset.getInt 4 = .ok e4 ∧ offset.getInt 12 = .ok e12
        ∧ resolvedOffset (hasHint d.hints "easyshare_offset_hack") e4 e12
            ≤ d.mFile.getSize) := by
  cases hc : d.mRootIFD.getEntryRecursive TiffTag.COMPRESSION with
  | none =>
    refine Or.inl ⟨ThrowRDE "KDC Decoder: Couldn't find compression setting" [], fun c => ?_⟩
    unfold decodeRawInternal
    simp only [hc]
  | some ce =>
    cases hv : ce.getInt 0 with
    | error e =>
      refine Or.inl ⟨e, fun c => ?_⟩
      unfold decodeRawInternal
      simp only [hc, hv]
    | ok v =>
      by_cases h7 : v = 7
      · subst h7
        cases hew : d.mRootIFD.getEntryRecursive TiffTag.KODAK_KDC_WIDTH with
        | none =>
          refine Or.inl ⟨ThrowRDE "KDC Decoder: Unable to retrieve image size" [], fun c => ?_⟩
          rw [decodeRawInternal_compression_seven c d ce hc hv]
          unfold resolveGeometry
          simp only [hew]
        | some ew =>
          cases heh : d.mRootIFD.getEntryRecursive TiffTag.KODAK_KDC_HEIGHT with
          | none =>
            refine Or.inl ⟨ThrowRDE "KDC Decoder: Unable to retrieve image size" [], fun c => ?_⟩
            rw [decodeRawInternal_compression_seven c d ce hc hv]
            unfold resolveGeometry
            simp only [hew, heh]
          | some eh =>
            cases hw : ew.getInt 0 with
            | error e =>
              refine Or.inl ⟨e, fun c => ?_⟩
              rw [decodeRawInternal_compression_seven c d ce hc hv]
              unfold resolveGeometry
              simp only [hew, heh, hw]
            | ok w =>
              cases hh : eh.getInt 0 with
              | error e =>
                refine Or.inl ⟨e, fun c => ?_⟩
                rw [decodeRawInternal_compression_seven c d ce hc hv]
                unfold resolveGeometry
                simp only [hew, heh, hw, hh]
              | ok h =>
                cases ho : d.mRootIFD.getEntryRecursive TiffTag.KODAK_KDC_OFFSET with
                | none =>
                  refine Or.inl ⟨ThrowRDE "KDC Decoder: Couldn't find the KDC offset" [],
                    fun c => ?_⟩
                  rw [decodeRawInternal_compression_seven c d ce hc hv,
                    resolveGeometry_tags c d ew eh w h hew heh hw hh]
                  unfold resolveOffset
                  simp only [ho]
                | some offset =>
                  by_cases hcount : offset.count < 13
                  · refine Or.inl ⟨ThrowRDE "KDC Decoder: Couldn't find the KDC offset" [],
                      fun c => ?_⟩
                    rw [decodeRawInternal_compression_seven c d ce hc hv,
                      resolveGeometry_tags c d ew eh w h hew heh hw hh]
                    unfold resolveOffset
                    simp only [ho, hcount, if_true]
                  · cases h4 : offset.getInt 4 with
                    | error e =>
                      refine Or.inl ⟨e, fun c => ?_⟩
                      rw [decodeRawInternal_compression_seven c d ce hc hv,
                        resolveGeometry_tags c d ew eh w h hew heh hw hh]
                      unfold resolveOffset
                      simp only [ho, hcount, if_false, h4]
                    | ok e4 =>
                      cases h12 : offset.getInt 12 with
                      | error e =>
                        refine Or.inl ⟨e, fun c => ?_⟩
                        rw [decodeRawInternal_compression_seven c d ce hc hv,
                          resolveGeometry_tags c d ew eh w h hew heh hw hh]
                        unfold resolveOffset
                        simp only [ho, hcount, if_false, h4, h12]
                      | ok e12 =>
                        by_cases hb : resolvedOffset (hasHint d.hints "easyshare_offset_hack")
                            e4 e12 > d.mFile.getSize
                        · refine Or.inl ⟨ThrowRDE "KDC Decoder: offset is out of bounds" [],
                            fun c => ?_⟩
                          exact decodeRawInternal_offset_gt_size c d ce ew eh offset w h e4 e12
                            hc hv hew heh hw hh ho (by omega) h4 h12 hb
                        · exact Or.inr ⟨ce, ew, eh, offset, w, h, e4, e12, rfl, hv, rfl, rfl,
                            hw, hh, rfl, by omega, h4, h12, by omega⟩
      · refine Or.inl ⟨ThrowRDE "KDC Decoder: Unsupported compression %d" [toInt32 v],
          fun c => ?_⟩
        have hlt := getInt_lt ce 0 v hv
        have hne : 7 ≠ toInt32 v := fun h => h7 ((toInt32_eq_seven v hlt).mp h.symm)
        unfold decodeRawInternal
        simp only [hc, hv, hne, ne_eq, not_false_eq_true, if_true]

/-- C16, counterexample: (a) width tag 70000 with every raw-decode tag in
order, offset 0x3000 inside a file large enough for the payload, an unpacker
that would succeed on these arguments, and an allocator that refuses images
wider than 65535 pixels: decodeRawInternal fails although none of the listed
fatal conditions holds and the unpacker does not fail; (b) with the hint set
and a file of exactly 0x15000 bytes the resolved offset 0x15000 is not within
the file, yet the buffer is allocated and the unpacker is invoked (it is the
unpacker's exception that escapes). -/
theorem decodeRawInternal_contract_gaps :
    resolvedOffset false 0x1000 0x2000
        < (rawDecoder (rawIFD (some 7) (some 70000) (some 3000)
            (some (offsetEntry 0x1000 0x2000))) 322730688 false).mFile.getSize
    ∧ (∀ r, (specUnpack (rawDecoder (rawIFD (some 7) (some 70000) (some 3000)
            (some (offsetEntry 0x1000 0x2000))) 322730688 false).mFile
          0x3000 false 70080 3070 r).thrown = none)
    ∧ (decodeRawInternal (boundedCollab 65535)
        (rawDecoder (rawIFD (some 7) (some 70000) (some 3000)
          (some (offsetEntry 0x1000 0x2000))) 322730688 false)).thrown
        = some (ThrowRDE "Dimensions too large for allocation." [])
    ∧ resolvedOffset true 0x1000 0x2000
        = (rawDecoder (rawIFD (some 7) (some 4000) (some 3000)
            (some (offsetEntry 0x1000 0x2000))) 0x15000 true).mFile.getSize
    ∧ (decodeRawInternal specCollab (rawDecoder (rawIFD (some 7) (some 4000) (some 3000)
          (some (offsetEntry 0x1000 0x2000))) 0x15000 true)).thrown
        = some (Exc.OtherException "read past the end of the byte source")
    ∧ (decodeRawInternal specCollab (rawDecoder (rawIFD (some 7) (some 4000) (some 3000)
          (some (offsetEntry 0x1000 0x2000))) 0x15000 true)).mRaw.data.isSome = true := by
  refine ⟨by decide, fun r => ?_, by decide, by decide, by decide, by decide⟩
  unfold specUnpack
  rw [if_neg (by decide)]

/-- C16, amended: (1) when Compression is 7, the width and height tags are
present, the offset entry has at least 13 elements, the resolved offset is
strictly less than the file size, the allocation returns normally and the
unpacker does not fail, decodeRawInternal succeeds and the image it returns is
exactly the result of the single unpacker call on (file, resolved offset,
resolved width, resolved height) applied to the allocated image; (2) when
Compression is missing or not 7, a size tag is missing, the offset entry is
missing or shorter than 13 elements, or the resolved offset is greater than
the file size, the method throws an exception that does not depend on the
collaborators and leaves `mRaw` untouched: the allocator and the unpacker are
not invoked. -/
theorem decodeRawInternal_unpacker_invocation (c : Collab) (d : KdcDecoder) :
    (∀ ce ew eh offset w h e4 e12 r2,
        d.mRootIFD.getEntryRecursive TiffTag.COMPRESSION = some ce →
        ce.getInt 0 = .ok 7 →
        d.mRootIFD.getEntryRecursive TiffTag.KODAK_KDC_WIDTH = some ew →
        d.mRootIFD.getEntryRecursive TiffTag.KODAK_KDC_HEIGHT = some eh →
        ew.getInt 0 = .ok w → eh.getInt 0 = .ok h →
        d.mRootIFD.getEntryRecursive TiffTag.KODAK_KDC_OFFSET = some offset →
        13 ≤ offset.count →
        offset.getInt 4 = .ok e4 → offset.getInt 12 = .ok e12 →
        resolvedOffset (hasHint d.hints "easyshare_offset_hack") e4 e12 < d.mFile.getSize →
        c.createData (d.mRaw.setDim (iPoint2D.mk (toInt32 ((w + 80) % 4294967296))
            (toInt32 ((h + 70) % 4294967296)))) = Run.mk none r2 →
        (c.decode12BitRawBE d.mFile
            (resolvedOffset (hasHint d.hints "easyshare_offset_hack") e4 e12)
            d.uncorrectedRawValues ((w + 80) % 4294967296) ((h + 70) % 4294967296)
            r2).thrown = none →
        decodeRawInternal c d
            = c.decode12BitRawBE d.mFile
                (resolvedOffset (hasHint d.hints "easyshare_offset_hack") e4 e12)
                d.uncorrectedRawValues ((w + 80) % 4294967296) ((h + 70) % 4294967296) r2
        ∧ (decodeRawInternal c d).thrown = none)
    ∧ ((d.mRootIFD.getEntryRecursive TiffTag.COMPRESSION = none
          ∨ (∃ ce v, d.mRootIFD.getEntryRecursive TiffTag.COMPRESSION = some ce
              ∧ ce.getInt 0 = .ok v ∧ v ≠ 7)
          ∨ d.mRootIFD.getEntryRecursive TiffTag.KODAK_KDC_WIDTH = none
          ∨ d.mRootIFD.getEntryRecursive TiffTag.KODAK_KDC_HEIGHT = none
          ∨ d.mRootIFD.getEntryRecursive TiffTag.KODAK_KDC_OFFSET = none
          ∨ (∃ offset, d.mRootIFD.getEntryRecursive TiffTag.KODAK_KDC_OFFSET = some offset
              ∧ offset.count < 13)
          ∨ (∃ offset e4 e12,
              d.mRootIFD.getEntryRecursive TiffTag.KODAK_KDC_OFFSET = some offset
              ∧ offset.getInt 4 = .ok e4 ∧ offset.getInt 12 = .ok e12
              ∧ resolvedOffset (hasHint d.hints "easyshare_offset_hack") e4 e12
                  > d.mFile.getSize)) →
        ∃ e, ∀ c2 : Collab, decodeRawInternal c2 d = Run.mk (some e) d.mRaw) := by
  constructor
  · intro ce ew eh offset w h e4 e12 r2 hc hv hew heh hw hh ho hcount h4 h12 hoff halloc hunp
    have hnot : ¬ resolvedOffset (hasHint d.hints "easyshare_offset_hack") e4 e12
        > d.mFile.getSize := by omega
    have hrun : decodeRawInternal c d
        = c.decode12BitRawBE d.mFile
            (resolvedOffset (hasHint d.hints "easyshare_offset_hack") e4 e12)
            d.uncorrectedRawValues ((w + 80) % 4294967296) ((h + 70) % 4294967296) r2 := by
      rw [decodeRawInternal_resolved c d ce ew eh offset w h e4 e12 hc hv hew heh hw hh ho
        hcount h4 h12, if_neg hnot]
      unfold decodePixels
      rw [halloc]
    exact ⟨hrun, by rw [hrun]; exact hunp⟩
  · intro hfatal
    rcases decodeRawInternal_cases d with hthrow | ⟨ce, ew, eh, offset, w, h, e4, e12, hc, hv,
      hew, heh, hw, hh, ho, hcount, h4, h12, hle⟩
    · exact hthrow
    · exfalso
      rcases hfatal with h | ⟨ce2, v, h, hv2, hne⟩ | h | h | h | ⟨o2, h, hshort⟩
        | ⟨o2, a, b, h, ha, hb, hgt⟩
      · rw [hc] at h
        cases h
      · rw [hc] at h
        injection h with h
        subst h
        rw [hv] at hv2
        injection hv2 with hv2
        exact hne hv2.symm
      · rw [hew] at h
        cases h
      · rw [heh] at h
        cases h
      · rw [ho] at h
        cases h
      · rw [ho] at h
        injection h with h
        subst h
        omega
      · rw [ho] at h
        injection h with h
        subst h
        rw [h4] at ha
        rw [h12] at hb
        injection ha with ha
        injection hb with hb
        subst ha
        subst hb
        omega

/-- Witness for `decodeRawInternal_unpacker_invocation`: a 4000 x 3000 file
whose payload fits decodes successfully through the unpacker, and an input
without offset entry fails with `mRaw` untouched whatever the collaborators. -/
theorem decodeRawInternal_unpacker_invocation_witness :
    (decodeRawInternal specCollab (rawDecoder (rawIFD (some 7) (some 4000) (some 3000)
        (some (offsetEntry 0x1000 0x2000))) 18800688 false)).thrown = none
    ∧ ∃ e, ∀ c2 : Collab,
        decodeRawInternal c2 (rawDecoder (rawIFD (some 7) (some 4000) (some 3000) none) 16 false)
          = Run.mk (some e) emptyImage :=
  ⟨((decodeRawInternal_unpacker_invocation specCollab
      (rawDecoder (rawIFD (some 7) (some 4000) (some 3000)
        (some (offsetEntry 0x1000 0x2000))) 18800688 false)).1
      (intEntry [7]) (intEntry [4000]) (intEntry [3000]) (offsetEntry 0x1000 0x2000)
      4000 3000 0x1000 0x2000
      (specCreateData (emptyImage.setDim (iPoint2D.mk (toInt32 ((4000 + 80) % 4294967296))
        (toInt32 ((3000 + 70) % 4294967296))))).mRaw
      rfl rfl rfl rfl rfl rfl rfl (by decide) rfl rfl (by decide) rfl (by decide)).2,
   (decodeRawInternal_unpacker_invocation specCollab
      (rawDecoder (rawIFD (some 7) (some 4000) (some 3000) none) 16 false)).2
      (Or.inr (Or.inr (Or.inr (Or.inr (Or.inl rfl)))))⟩

/-! ## Order of the fatal checks (C17) -/

/-- C17: decodeRawInternal reports the earliest violated condition of the
order Compression missing, Compression not 7, width or height missing, offset
entry missing or shorter than 13 elements, offset out of bounds: each error
is raised as soon as its condition holds and the earlier ones do not, whatever
the state of the later ones. -/
theorem decodeRawInternal_error_order (c : Collab) (d : KdcDecoder) :
    (d.mRootIFD.getEntryRecursive TiffTag.COMPRESSION = none →
        decodeRawInternal c d
          = Run.mk (some (ThrowRDE "KDC Decoder: Couldn't find compression setting" [])) d.mRaw)
    ∧ (∀ ce v, d.mRootIFD.getEntryRecursive TiffTag.COMPRESSION = some ce →
        ce.getInt 0 = .ok v → v ≠ 7 →
        decodeRawInternal c d
          = Run.mk (some (ThrowRDE "KDC Decoder: Unsupported compression %d" [toInt32 v])) d.mRaw)
    ∧ (∀ ce, d.mRootIFD.getEntryRecursive TiffTag.COMPRESSION = some ce →
        ce.getInt 0 = .ok 7 →
        (d.mRootIFD.getEntryRecursive TiffTag.KODAK_KDC_WIDTH = none
          ∨ d.mRootIFD.getEntryRecursive TiffTag.KODAK_KDC_HEIGHT = none) →
        decodeRawInternal c d
          = Run.mk (some (ThrowRDE "KDC Decoder: Unable to retrieve image size" [])) d.mRaw)
    ∧ (∀ ce ew eh w h, d.mRootIFD.getEntryRecursive TiffTag.COMPRESSION = some ce →
        ce.getInt 0 = .ok 7 →
        d.mRootIFD.getEntryRecursive TiffTag.KODAK_KDC_WIDTH = some ew →
        d.mRootIFD.getEntryRecursive TiffTag.KODAK_KDC_HEIGHT = some eh →
        ew.getInt 0 = .ok w → eh.getInt 0 = .ok h →
        (d.mRootIFD.getEntryRecursive TiffTag.KODAK_KDC_OFFSET = none
          ∨ ∃ offset, d.mRootIFD.getEntryRecursive TiffTag.KODAK_KDC_OFFSET = some offset
              ∧ offset.count < 13) →
        decodeRawInternal c d
          = Run.mk (some (ThrowRDE "KDC Decoder: Couldn't find the KDC offset" [])) d.mRaw)
    ∧ (∀ ce ew eh offset w h e4 e12,
        d.mRootIFD.getEntryRecursive TiffTag.COMPRESSION = some ce →
        ce.getInt 0 = .ok 7 →
        d.mRootIFD.getEntryRecursive TiffTag.KODAK_KDC_WIDTH = some ew →
        d.mRootIFD.getEntryRecursive TiffTag.KODAK_KDC_HEIGHT = some eh →
        ew.getInt 0 = .ok w → eh.getInt 0 = .ok h →
        d.mRootIFD.getEntryRecursive TiffTag.KODAK_KDC_OFFSET = some offset →
        13 ≤ offset.count →
        offset.getInt 4 = .ok e4 → offset.getInt 12 = .ok e12 →
        resolvedOffset (hasHint d.hints "easyshare_offset_hack") e4 e12 > d.mFile.getSize →
        decodeRawInternal c d
          = Run.mk (some (ThrowRDE "KDC Decoder: offset is out of bounds" [])) d.mRaw) := by
  refine ⟨fun hc => ?_, fun ce v hc hv hne => ?_, fun ce hc hv hg => ?_,
    fun ce ew eh w h hc hv hew heh hw hh ho => ?_,
    fun ce ew eh offset w h e4 e12 hc hv hew heh hw hh ho hcount h4 h12 hoff => ?_⟩
  · unfold decodeRawInternal
    simp only [hc]
  · have hlt := getInt_lt ce 0 v hv
    have h7 : 7 ≠ toInt32 v := fun h => hne ((toInt32_eq_seven v hlt).mp h.symm)
    unfold decodeRawInternal
    simp only [hc, hv, h7, ne_eq, not_false_eq_true, if_true]
  · rw [decodeRawInternal_compression_seven c d ce hc hv]
    unfold resolveGeometry
    rcases hg with hg | hg
    · simp only [hg]
    · cases hew : d.mRootIFD.getEntryRecursive TiffTag.KODAK_KDC_WIDTH <;> simp only [hg]
  · rw [decodeRawInternal_compression_seven c d ce hc hv,
      resolveGeometry_tags c d ew eh w h hew heh hw hh]
    unfold resolveOffset
    rcases ho with ho | ⟨offset, ho, hcount⟩
    · simp only [ho]
    · simp only [ho, hcount, if_true]
  · exact decodeRawInternal_offset_gt_size c d ce ew eh offset w h e4 e12 hc hv hew heh hw hh
      ho hcount h4 h12 hoff

/-- Witness for `decodeRawInternal_error_order`: Compression 5 with no width
tag reports unsupported compression, and a missing height tag together with
an offset beyond the file reports the image-size error. -/
theorem decodeRawInternal_error_order_witness :
    decodeRawInternal specCollab
        (rawDecoder (rawIFD (some 5) none (some 3000) (some (offsetEntry 0x1000 0x2000)))
          0x4000 false)
      = Run.mk (some (ThrowRDE "KDC Decoder: Unsupported compression %d" [toInt32 5])) emptyImage
    ∧ resolvedOffset false 0x1000 0x2000
        > (rawDecoder (rawIFD (some 7) (some 4000) none (some (offsetEntry 0x1000 0x2000)))
          16 false).mFile.getSize
    ∧ decodeRawInternal specCollab
        (rawDecoder (rawIFD (some 7) (some 4000) none (some (offsetEntry 0x1000 0x2000)))
          16 false)
      = Run.mk (some (ThrowRDE "KDC Decoder: Unable to retrieve image size" [])) emptyImage :=
  ⟨(decodeRawInternal_error_order specCollab
      (rawDecoder (rawIFD (some 5) none (some 3000) (some (offsetEntry 0x1000 0x2000)))
        0x4000 false)).2.1 (intEntry [5]) 5 rfl rfl (by decide),
   by decide,
   (decodeRawInternal_error_order specCollab
      (rawDecoder (rawIFD (some 7) (some 4000) none (some (offsetEntry 0x1000 0x2000)))
        16 false)).2.2.1 (intEntry [7]) rfl rfl (Or.inr rfl)⟩

/-! ## Wrap-around of the offset sum (C18) -/

/-- C18: without the hint the resolved offset is (element[4] + element[12])
mod 2^32; for elements 0xFFFFFFFF and 2 in a file of 16 bytes the sum is at
least 2^32 and exceeds the file size, the wrapped offset is 1, the bounds
check passes and, whatever the collaborators, the method goes on to allocate
and call the unpacker at offset 1 instead of throwing the out-of-bounds
error. -/
theorem resolvedOffset_uint32_wrap :
    (∀ e4 e12 : Nat, resolvedOffset false e4 e12 = (e4 + e12) % 4294967296)
    ∧ hasHint (rawDecoder (rawIFD (some 7) (some 4000) (some 3000)
        (some (offsetEntry 4294967295 2))) 16 false).hints "easyshare_offset_hack" = false
    ∧ 4294967295 + 2 ≥ 4294967296
    ∧ 4294967295 + 2 > (rawDecoder (rawIFD (some 7) (some 4000) (some 3000)
        (some (offsetEntry 4294967295 2))) 16 false).mFile.getSize
    ∧ resolvedOffset false 4294967295 2 = 1
    ∧ (∀ c : Collab,
        decodeRawInternal c (rawDecoder (rawIFD (some 7) (some 4000) (some 3000)
            (some (offsetEntry 4294967295 2))) 16 false)
          = decodePixels c (rawDecoder (rawIFD (some 7) (some 4000) (some 3000)
            (some (offsetEntry 4294967295 2))) 16 false) 4080 3070 1)
    ∧ (decodeRawInternal specCollab (rawDecoder (rawIFD (some 7) (some 4000) (some 3000)
          (some (offsetEntry 4294967295 2))) 16 false)).thrown
        ≠ some (ThrowRDE "KDC Decoder: offset is out of bounds" []) := by
  refine ⟨fun e4 e12 => rfl, by decide, by decide, by decide, by decide, fun c => rfl,
    by decide⟩

/-! ## Fatal errors of `decodeMetaDataInternal` (C19) -/

/-- C19: if no directory carries Model, or the first directory carrying Model
has no Make entry, decodeMetaDataInternal throws its own error with `mRaw`
exactly as on entry, whatever the collaborators are: `setMetaData` and the two
white-balance paths have not run, so the coefficients and the warnings are
those on entry. -/
theorem decodeMetaDataInternal_atomic (c : Collab) (d : KdcDecoder) :
    (d.mRootIFD.getIFDsWithTag TiffTag.MODEL = [] →
        decodeMetaDataInternal c d
            = Run.mk (some (ThrowRDE "KDC Decoder: Model name found" [])) d.mRaw
        ∧ (decodeMetaDataInternal c d).mRaw.wbCoeffs = d.mRaw.wbCoeffs
        ∧ (decodeMetaDataInternal c d).mRaw.errors = d.mRaw.errors)
    ∧ (∀ d0 rest, d.mRootIFD.getIFDsWithTag TiffTag.MODEL = d0 :: rest →
        d0.mEntry TiffTag.MAKE = none →
        decodeMetaDataInternal c d
            = Run.mk (some (ThrowRDE "KDC Decoder: Make name not found" [])) d.mRaw
        ∧ (decodeMetaDataInternal c d).mRaw.wbCoeffs = d.mRaw.wbCoeffs
        ∧ (decodeMetaDataInternal c d).mRaw.errors = d.mRaw.errors) := by
  constructor
  · intro hdirs
    have hrun : decodeMetaDataInternal c d
        = Run.mk (some (ThrowRDE "KDC Decoder: Model name found" [])) d.mRaw := by
      unfold decodeMetaDataInternal
      simp only [hdirs]
    rw [hrun]
    exact ⟨rfl, rfl, rfl⟩
  · intro d0 rest hdirs hmake
    have hrun : decodeMetaDataInternal c d
        = Run.mk (some (ThrowRDE "KDC Decoder: Make name not found" [])) d.mRaw := by
      unfold decodeMetaDataInternal
      simp only [hdirs, TiffDir.hasEntry, hmake, Option.isSome_none, Bool.not_false, if_true]
    rw [hrun]
    exact ⟨rfl, rfl, rfl⟩

/-- Witness for `decodeMetaDataInternal_atomic`: a repository without Model,
and one whose Model directory has no Make, both carrying a hidden-IFD pointer
and a flat white-balance block that are never looked at. -/
theorem decodeMetaDataInternal_atomic_witness :
    decodeMetaDataInternal (nestedCollab (wbIFD (some (floatEntry 3 [2, 1, 3 / 2]))))
        (rawDecoder (metaIFD [] (some (intEntry [4096]))
          (some (byteEntry 734 (wbBlock 0x01 0x00 0x01 0x40)))) 0 false)
      = Run.mk (some (ThrowRDE "KDC Decoder: Model name found" [])) emptyImage
    ∧ decodeMetaDataInternal (nestedCollab (wbIFD (some (floatEntry 3 [2, 1, 3 / 2]))))
        (rawDecoder (metaIFD [dirOf none (some "DC50")] (some (intEntry [4096]))
          (some (byteEntry 734 (wbBlock 0x01 0x00 0x01 0x40)))) 0 false)
      = Run.mk (some (ThrowRDE "KDC Decoder: Make name not found" [])) emptyImage :=
  ⟨((decodeMetaDataInternal_atomic (nestedCollab (wbIFD (some (floatEntry 3 [2, 1, 3 / 2]))))
      (rawDecoder (metaIFD [] (some (intEntry [4096]))
        (some (byteEntry 734 (wbBlock 0x01 0x00 0x01 0x40)))) 0 false)).1 rfl).1,
   ((decodeMetaDataInternal_atomic (nestedCollab (wbIFD (some (floatEntry 3 [2, 1, 3 / 2]))))
      (rawDecoder (metaIFD [dirOf none (some "DC50")] (some (intEntry [4096]))
        (some (byteEntry 734 (wbBlock 0x01 0x00 0x01 0x40)))) 0 false)).2
      (dirOf none (some "DC50")) [] rfl rfl).1⟩

/-! ## Errors that do not identify their condition (C15) -/

end RawSpeed
